import Mathlib

/-!
Shallow embedding of the WaveRunner simulation core (`src/main.py`) over ℚ.

Modelling conventions, fixed once for the whole file:

* Python floats are modelled as rationals (ℚ); Python ints as ℤ.
* `math.sin` is transcendental, so it is carried as an explicit function
  parameter `Env.sin : ℚ → ℚ`; likewise the constant `2·π` appears only as
  `Env.twoPi` (it is used as `k = 2π/WAVELENGTH` and as the modulus of the
  spawner phase).  Every theorem below is proved for an arbitrary such
  environment, so nothing depends on the actual values of the sine function.
* `pygame.time.get_ticks()` (the wall clock, in milliseconds) is an input the
  source reads implicitly; it is made explicit as `Env.nowMs`.
* Calls into `random` are modelled by an explicit oracle: every kill event
  consumes one `KillDraw` (the special-catch roll and the randomized fields of
  a freshly spawned `SpecialCatch`/`Buoy`), and an enemy-wave spawn consumes a
  `WaveDraws` record.  The oracle values are unconstrained, which is a
  superset of the behaviours of the Python RNG.
* Purely presentational state is omitted: surfaces, fonts, sounds, the pause
  button rectangle and the `ComboPopup` list (`combo_popups` only carries
  rendered text surfaces).  The `stage_banner_text` string is kept since the
  progression code writes it.
* `Game.update` (main.py:669-823) is split into named sequential steps,
  preserving the statement order of the source exactly; `Game.run_tick` chains
  them and `Game.update` adds the intro/paused/game-over gating around them.
-/

namespace WaveRunner

/-- Ambient per-tick inputs that the Python source obtains from the `math`
module and from `pygame.time.get_ticks()`: an abstract sine function, the
constant `2·π`, and the wall-clock millisecond counter. -/
structure Env where
  sin : ℚ → ℚ
  twoPi : ℚ
  nowMs : ℚ

/-! ### Configuration constants (main.py:10-43) -/

def WIDTH : ℚ := 960
def HEIGHT : ℚ := 540
def WATERLINE : ℚ := HEIGHT * 0.62
def WAVE_POINTS : ℕ := 160
def WAVE_SPEED : ℚ := 0.95
def BASE_AMPLITUDE : ℚ := 46
def AMPLITUDE_SWAY : ℚ := 30
def WAVELENGTH : ℚ := 220
def PLAYER_RADIUS : ℚ := 14
def PLAYER_GRAVITY : ℚ := 0.75
def JUMP_VELOCITY : ℚ := -12
def DOUBLE_JUMP_MULTIPLIER : ℚ := 2.0
def DOUBLE_TAP_WINDOW : ℚ := 0.28
def ENEMY_SPAWN_EVERY : ℚ := 1.25
def ENEMY_MIN_SPEED : ℚ := 2.8
def ENEMY_MAX_SPEED : ℚ := 5.2
def ENEMY_RADIUS : ℚ := 14
def PULSE_RADIUS_MAX : ℚ := 260
def PULSE_ENERGY_MAX : ℚ := 100
def PULSE_GAIN_ON_HIT : ℚ := 28
def HARPOON_SPEED : ℚ := 620
def HARPOON_COOLDOWN : ℚ := 0.45
def BUOY_DRIFT_SPEED : ℚ := 36
def SPECIAL_CATCH_CHANCE : ℚ := 0.22
def SPECIAL_MAX_STOCK : ℤ := 5

/-! ### Helpers -/

/-- Python `int(q)` (truncation toward zero). -/
def pyInt (q : ℚ) : ℤ :=
  if 0 ≤ q then ⌊q⌋ else -⌊-q⌋

/-- Python float `a % m` (for the positive modulus used at main.py:692). -/
def pyMod (a m : ℚ) : ℚ :=
  a - m * ⌊a / m⌋

/-- main.py:72-73. -/
def lerp (a b t : ℚ) : ℚ :=
  a + (b - a) * t

/-- main.py:76-83, `generate_wave_y`: water surface Y at X from three sine
layers, with the amplitude itself swaying over elapsed time. -/
def generate_wave_y (env : Env) (x phase t : ℚ) : ℚ :=
  let k := env.twoPi / WAVELENGTH
  let a := BASE_AMPLITUDE + AMPLITUDE_SWAY * (0.5 + 0.5 * env.sin (t * 0.3))
  let y := WATERLINE + a * env.sin (k * x + phase)
  let y := y + 0.33 * a * env.sin (0.5 * k * x - 0.7 * phase + t * 0.6)
  let y := y + 0.12 * a * env.sin (1.7 * k * x + 1.9 * phase)
  y

/-- main.py:86-93, `build_wave_mesh`. -/
def build_wave_mesh (env : Env) (phase t : ℚ) : List (ℚ × ℚ) :=
  (List.range (WAVE_POINTS + 1)).map (fun i =>
    let x := (i : ℚ) * (WIDTH / (WAVE_POINTS : ℚ))
    (x, generate_wave_y env x phase t))

/-! ### Entities -/

/-- main.py:111-122, `Particle` (the drawing code is out of scope). -/
structure Particle where
  x : ℚ
  y : ℚ
  vx : ℚ
  vy : ℚ
  life : ℚ
  start_life : ℚ
deriving DecidableEq

/-- main.py:118-122, `Particle.update`. -/
def Particle.update (dt : ℚ) (p : Particle) : Particle :=
  { p with x := p.x + p.vx * dt, y := p.y + p.vy * dt,
           vy := p.vy + 40 * dt, life := p.life - dt }

/-- main.py:136-145, `Pulse`. -/
structure Pulse where
  x : ℚ
  y : ℚ
  r : ℚ
  alive : Bool
deriving DecidableEq

/-- main.py:142-145, `Pulse.update`. -/
def Pulse.update (dt : ℚ) (p : Pulse) : Pulse :=
  let r := p.r + 320 * dt
  { p with r := r, alive := if r > PULSE_RADIUS_MAX then false else p.alive }

/-- main.py:154-166, `Harpoon`. -/
structure Harpoon where
  x : ℚ
  y : ℚ
  direction : ℤ
  vx : ℚ
  alive : Bool
deriving DecidableEq

/-- main.py:155-160, `Harpoon.__init__`. -/
def Harpoon.init (x y : ℚ) (direction : ℤ) : Harpoon :=
  { x := x, y := y, direction := direction,
    vx := HARPOON_SPEED * (direction : ℚ), alive := true }

/-- main.py:162-166, `Harpoon.update`.  The vertical bob reads the wall clock
`pygame.time.get_ticks()`, modelled by `env.nowMs`. -/
def Harpoon.update (env : Env) (dt : ℚ) (h : Harpoon) : Harpoon :=
  let x := h.x + h.vx * dt
  let y := h.y + env.sin (env.nowMs * 0.002 + x * 0.01) * 10 * dt
  { h with x := x, y := y,
           alive := if x < -60 ∨ x > WIDTH + 60 then false else h.alive }

/-- Enemy variant tag (main.py:188-193, 590). -/
inductive Variant where
  | standard
  | hopper
  | diver
  | charger
deriving DecidableEq

/-- main.py:187-227, `Enemy`. -/
structure Enemy where
  x : ℚ
  speed : ℚ
  variant : Variant
  alive : Bool
  t : ℚ
  y : ℚ
  warning : ℚ
  wave_offset : ℚ
deriving DecidableEq

/-- main.py:195-203, `Enemy.__init__`; `wave_offset` is the oracle value for
`random.uniform(0, 2π)`. -/
def Enemy.init (x speed : ℚ) (variant : Variant) (wave_offset : ℚ) : Enemy :=
  { x := x, speed := speed, variant := variant, alive := true,
    t := 0, y := WATERLINE, warning := 0.4, wave_offset := wave_offset }

/-- Variant-specific vertical placement, main.py:210-221 (evaluated with the
already-advanced per-enemy accumulator `et` and the pre-decrement warning). -/
def Enemy.updated_y (env : Env) (variant : Variant) (et x warning wave_offset phase t : ℚ) : ℚ :=
  let wave_y := generate_wave_y env x phase t
  match variant with
  | Variant.hopper => wave_y - 6 - env.sin (et * 3.4) * 30 * max 0 (1 - warning * 2)
  | Variant.diver => wave_y - 6 + env.sin (et * 2.2 + 1.2) * 18
  | Variant.charger => wave_y - 12 + env.sin (et * 6.0 + wave_offset) * 6
  | Variant.standard => wave_y - 6

/-- main.py:205-227, `Enemy.update`. -/
def Enemy.update (env : Env) (dt phase t : ℚ) (e : Enemy) : Enemy :=
  let et := e.t + dt
  let x := e.x - e.speed * 60 * dt
  let y := Enemy.updated_y env e.variant et x e.warning e.wave_offset phase t
  let speed := if e.variant = Variant.charger then e.speed * 1.005 else e.speed
  let alive := if x < -40 then false else e.alive
  let warning := if e.warning > 0 then e.warning - dt else e.warning
  { e with t := et, x := x, y := y, speed := speed, alive := alive, warning := warning }

/-- main.py:277-282, `Enemy.hit_by_pulse`. -/
def Enemy.hit_by_pulse (e : Enemy) (p : Pulse) : Bool :=
  p.alive && decide ((e.x - p.x) * (e.x - p.x) + (e.y - p.y) * (e.y - p.y)
    ≤ (p.r + ENEMY_RADIUS) ^ 2)

/-- Decoded jump intent kind (main.py:641-649). -/
inductive JumpKind where
  | single
  | double
deriving DecidableEq

/-- main.py:285-297, `Player` state. -/
structure Player where
  anchor_x : ℚ
  x : ℚ
  y : ℚ
  vy : ℚ
  health : ℤ
  iframes : ℚ
  score : ℚ
  combo : ℤ
  best_combo : ℤ
  last_combo_time : ℚ
  facing : ℤ
deriving DecidableEq

/-- main.py:286-297, `Player.__init__`. -/
def Player.init (env : Env) : Player :=
  { anchor_x := WIDTH * 0.3, x := WIDTH * 0.3,
    y := generate_wave_y env (WIDTH * 0.3) 0 0 - 22,
    vy := 0, health := 3, iframes := 0, score := 0, combo := 0,
    best_combo := 0, last_combo_time := 0, facing := 1 }

/-- main.py:299-302, `Player.snap_to_wave`. -/
def Player.snap_to_wave (env : Env) (phase t : ℚ) (p : Player) : Player :=
  { p with y := generate_wave_y env p.anchor_x phase t - 22, vy := 0 }

/-- main.py:304-331, `Player.update`.  The jump-intent argument is bound as
`_jump_request` in the source and is never read in the body, so this
definition does not use it either (the `_particles` argument is likewise
unused there and is dropped here). -/
def Player.update (env : Env) (dt phase t : ℚ) (_jump_request : Option JumpKind)
    (p : Player) : Player :=
  let x := p.anchor_x
  let target := generate_wave_y env x phase t - 22
  let delta := target - p.y
  let vy1 := (p.vy + delta * 0.12) * 0.88
  let y1 := p.y + vy1 * dt * 60
  let snap := |delta| < 0.4 ∧ |vy1| < 0.15
  { p with x := x,
           y := if snap then target else y1,
           vy := if snap then 0 else vy1,
           iframes := if p.iframes > 0 then p.iframes - dt else p.iframes,
           score := p.score + dt * 4 * (1 + (p.combo : ℚ) * 0.02),
           last_combo_time := p.last_combo_time + dt,
           facing := 1 }

/-- main.py:405-410, `Player.damage`. -/
def Player.damage (p : Player) : Player :=
  if p.iframes ≤ 0 then
    { p with health := p.health - 1, iframes := 1.0, combo := 0, last_combo_time := 0 }
  else p

/-- main.py:412-415, `Player.reward_combo`. -/
def Player.reward_combo (amount : ℤ) (p : Player) : Player :=
  let combo := min 99 (p.combo + amount)
  { p with combo := combo, best_combo := max p.best_combo combo, last_combo_time := 0 }

/-- main.py:418-435, `Buoy` (the `phase` field is `random.uniform(0, 2π)` at
construction, supplied by the oracle). -/
structure Buoy where
  base_x : ℚ
  x : ℚ
  y : ℚ
  target_x : ℚ
  phase : ℚ
deriving DecidableEq

/-- main.py:426-435, `Buoy.update`. -/
def Buoy.update (env : Env) (dt wphase t : ℚ) (b : Buoy) : Buoy :=
  let phase := b.phase + dt * 1.6
  let direction : ℚ := if b.base_x > b.target_x then -1 else 1
  let base_x := b.base_x + direction * BUOY_DRIFT_SPEED * dt
  let base_x := lerp base_x b.target_x (0.4 * dt)
  let x := base_x + env.sin (phase * 0.7) * 22
  let crest := generate_wave_y env x wphase t + env.sin ((t + phase) * 1.8) * 6
  { b with phase := phase, base_x := base_x, x := x,
           y := crest - 30 + env.sin (phase * 1.5) * 5 }

/-- main.py:458-461, `Buoy.collected_by`. -/
def Buoy.collected_by (b : Buoy) (px py : ℚ) : Bool :=
  decide ((px - b.x) * (px - b.x) + ((py + 10) - b.y) * ((py + 10) - b.y) ≤ 40 ^ 2)

/-- main.py:464-486, `SpecialCatch` (`phase` and `float_offset` are uniform
draws at construction, supplied by the oracle). -/
structure SpecialCatch where
  x : ℚ
  y : ℚ
  phase : ℚ
  float_offset : ℚ
  collected : Bool
deriving DecidableEq

/-- main.py:472-477, `SpecialCatch.update`. -/
def SpecialCatch.update (env : Env) (dt wphase t target_x : ℚ) (c : SpecialCatch) :
    SpecialCatch :=
  let phase := c.phase + dt * 2.4
  let x := c.x + (target_x - c.x) * dt * 2.0
  { c with phase := phase, x := x,
           y := generate_wave_y env x wphase t - 26 + env.sin phase * 8 + c.float_offset }

/-- main.py:479-486, `SpecialCatch.collected_by`: marks the catch collected on
overlap and reports whether it is now collected (idempotent: an already
collected catch reports `false`). -/
def SpecialCatch.collected_by (px py : ℚ) (c : SpecialCatch) : SpecialCatch × Bool :=
  if c.collected then (c, false)
  else if (px - c.x) * (px - c.x) + ((py - 8) - c.y) * ((py - 8) - c.y) ≤ 26 ^ 2 then
    ({ c with collected := true }, true)
  else (c, false)

/-! ### Random-draw oracles -/

/-- Oracle values consumed by one kill event: `special_roll` is the outcome of
`random.random() <= SPECIAL_CATCH_CHANCE` at main.py:864, the two `special_*`
fields are the uniform draws of `SpecialCatch.__init__`, and the two `buoy_*`
fields are the draws used when `_check_stage_progression` spawns the buoy
(main.py:842 and `Buoy.__init__`). -/
structure KillDraw where
  special_roll : Bool
  special_phase : ℚ
  special_offset : ℚ
  buoy_jitter : ℚ
  buoy_phase : ℚ
deriving DecidableEq

/-- Default oracle value used when the per-tick draw stream is exhausted. -/
def noDraw : KillDraw :=
  { special_roll := false, special_phase := 0, special_offset := 0,
    buoy_jitter := 0, buoy_phase := 0 }

/-- Oracle values for one enemy-wave spawn (main.py:583-611): the wave size
`n = random.randint(3, 4 + stage_factor // 2)`, the spacing, the base speed
draw `random.uniform(ENEMY_MIN_SPEED, ENEMY_MAX_SPEED)`, the per-enemy variant
choice and speed jitter, the per-enemy `wave_offset`, and the randomized spray
particle kinematics `(dx, dy, vx, vy)` of main.py:600-611. -/
structure WaveDraws where
  n : ℕ
  spacing : ℚ
  speed_u : ℚ
  variant_at : ℕ → Variant
  jitter_at : ℕ → ℚ
  offset_at : ℕ → ℚ
  spray : List (ℚ × ℚ × ℚ × ℚ)

/-- All oracle values a single tick may consume. -/
structure TickDraws where
  wave : WaveDraws
  kills : List KillDraw

/-! ### Game state -/

/-- Top-level state tag (main.py:523, 563, 671-672, 745, 820-821). -/
inductive GState where
  | intro
  | gameplay
  | game_over
deriving DecidableEq

/-- main.py:510-581, the simulation-relevant fields of `Game`.  Rendering and
audio fields (surfaces, fonts, sounds, `combo_popups`, `pause_rect`) are
omitted; `wave_mesh` is kept because `Game.update` writes it each tick. -/
structure Game where
  state : GState
  state_timer : ℚ
  paused : Bool
  pending_shot : Bool
  pending_pulse : Bool
  pending_special : Bool
  high_score : ℤ
  buoy : Option Buoy
  awaiting_buoy : Bool
  spawner_phase : ℚ
  special_catches : List SpecialCatch
  special_stock : ℤ
  jump_request : Option JumpKind
  last_space_press : ℚ
  player : Player
  enemies : List Enemy
  particles : List Particle
  pulses : List Pulse
  harpoons : List Harpoon
  spawn_timer : ℚ
  shoot_timer : ℚ
  pulse_energy : ℚ
  runtime : ℚ
  phase : ℚ
  stage : ℤ
  kills_this_stage : ℤ
  stage_goal : ℤ
  stage_banner_timer : ℚ
  stage_banner_text : String
  spawn_interval : ℚ
  wave_mesh : List (ℚ × ℚ)
deriving DecidableEq

/-- main.py:613-614, `Game._goal_for_stage`. -/
def goal_for_stage (stage : ℤ) : ℤ :=
  8 + stage * 4

/-- main.py:617-628, the stage-name table. -/
def stage_names : List String :=
  ["Dawn Swell", "Azure Rush", "Breaker Bloom", "Gale Current", "Vortex Tide",
   "Stormglass", "Moonlit Surge", "Tempest Rise", "Celestial Reef", "Mythic Maelstrom"]

/-- main.py:616-629, `Game._stage_name` (`names[min(stage - 1, len(names) - 1)]`;
Python's negative indexing for `stage < 1` is unreachable since the stage
counter starts at 1 and only increments). -/
def Game.stage_name (stage : ℤ) : String :=
  stage_names.getD (min (stage - 1) 9).toNat ("Dawn Swell")

/-- main.py:550-581, `Game.reset` (everything except `high_score`, which only
`__init__` sets, and `wave_mesh`, which only `update` writes). -/
def Game.reset (env : Env) (s : Game) : Game :=
  { s with
    player := Player.snap_to_wave env 0 0 (Player.init env),
    enemies := [], particles := [], pulses := [], harpoons := [],
    special_catches := [],
    spawn_timer := 0, shoot_timer := 0,
    pulse_energy := PULSE_ENERGY_MAX * 0.6,
    runtime := 0, phase := 0,
    state := GState.intro, state_timer := 0, paused := false,
    stage := 1, kills_this_stage := 0,
    stage_goal := goal_for_stage 1,
    stage_banner_timer := 3.0,
    stage_banner_text := "Stage " ++ toString (1 : ℤ) ++ ": Dawn Swell",
    spawn_interval := ENEMY_SPAWN_EVERY,
    pending_shot := false, pending_pulse := false, pending_special := false,
    buoy := none, awaiting_buoy := false,
    spawner_phase := 0, special_stock := 0,
    jump_request := none, last_space_press := -10 }

/-- main.py:511-538 composed with `reset`: the freshly constructed game
(`high_score = 0`; `wave_mesh` does not exist yet, modelled as `[]`). -/
def Game.init (env : Env) : Game :=
  Game.reset env
    { state := GState.intro, state_timer := 0, paused := false,
      pending_shot := false, pending_pulse := false, pending_special := false,
      high_score := 0, buoy := none, awaiting_buoy := false, spawner_phase := 0,
      special_catches := [], special_stock := 0, jump_request := none,
      last_space_press := -10, player := Player.init env, enemies := [],
      particles := [], pulses := [], harpoons := [], spawn_timer := 0,
      shoot_timer := 0, pulse_energy := 0, runtime := 0, phase := 0, stage := 1,
      kills_this_stage := 0, stage_goal := goal_for_stage 1,
      stage_banner_timer := 0, stage_banner_text := "", spawn_interval := ENEMY_SPAWN_EVERY,
      wave_mesh := [] }

/-- main.py:641-647, the space-key handler that decodes single versus double
jump intents from the wall clock (`pygame.time.get_ticks() / 1000`). -/
def Game.press_space (env : Env) (s : Game) : Game :=
  let now := env.nowMs / 1000
  { s with
    jump_request := some (if now - s.last_space_press ≤ DOUBLE_TAP_WINDOW
      then JumpKind.double else JumpKind.single),
    last_space_press := now }

/-- main.py:825-830, `Game.fire_harpoon`. -/
def Game.fire_harpoon (s : Game) : Game :=
  let direction : ℤ := if s.player.facing = 0 then 1 else s.player.facing
  { s with
    harpoons := s.harpoons ++
      [Harpoon.init (s.player.x + (direction : ℚ) * (PLAYER_RADIUS + 14))
        (s.player.y - 8) direction],
    shoot_timer := HARPOON_COOLDOWN }

/-- main.py:832-847, `Game._check_stage_progression`. -/
def Game.check_stage_progression (env : Env) (d : KillDraw) (s : Game) : Game :=
  if s.stage ≥ 10 then
    { s with spawn_interval := max 0.45 (ENEMY_SPAWN_EVERY - 0.1 * 9),
             kills_this_stage := min s.kills_this_stage s.stage_goal }
  else if s.awaiting_buoy then
    { s with kills_this_stage := min s.kills_this_stage s.stage_goal }
  else if s.kills_this_stage ≥ s.stage_goal then
    let buoy_x := WIDTH * 0.75 + d.buoy_jitter
    let buoy_y := generate_wave_y env buoy_x s.phase s.runtime - 30
    { s with kills_this_stage := s.stage_goal,
             buoy := some { base_x := buoy_x, x := buoy_x, y := buoy_y,
                            target_x := s.player.x, phase := d.buoy_phase },
             awaiting_buoy := true,
             stage_banner_timer := 3.2,
             stage_banner_text := "Collect the signal buoy!" }
  else s

/-- main.py:849-859, `Game._advance_stage`. -/
def Game.advance_stage (s : Game) : Game :=
  if s.awaiting_buoy = false then s
  else
    let stage := s.stage + 1
    { s with awaiting_buoy := false, buoy := none, stage := stage,
             kills_this_stage := 0, stage_goal := goal_for_stage stage,
             stage_banner_timer := 3.2,
             stage_banner_text := "Stage " ++ toString stage ++ ": " ++ Game.stage_name stage,
             spawn_interval := max 0.5 (ENEMY_SPAWN_EVERY - 0.1 * ((stage : ℚ) - 1)) }

/-- main.py:861-867, `Game._maybe_spawn_special`. -/
def Game.maybe_spawn_special (d : KillDraw) (x y : ℚ) (s : Game) : Game :=
  if SPECIAL_MAX_STOCK ≤ (s.special_catches.length : ℤ) then s
  else if d.special_roll = false then s
  else
    { s with special_catches := s.special_catches ++
        [{ x := x, y := y - 10, phase := d.special_phase,
           float_offset := d.special_offset, collected := false }] }

/-- main.py:583-611, `Game.spawn_enemy_wave`, with the random draws supplied
by the `WaveDraws` oracle. -/
def Game.spawn_enemy_wave (env : Env) (d : WaveDraws) (s : Game) : Game :=
  let stage_factor : ℤ := min s.stage 12
  let speed_boost : ℚ := 0.9 + ((stage_factor : ℚ) - 1) * 0.08
  let base_speed := d.speed_u * speed_boost
  let newcomers := (List.range d.n).map (fun (i : ℕ) =>
    Enemy.init (WIDTH + 50 + (i : ℚ) * d.spacing) (base_speed * d.jitter_at i)
      (d.variant_at i) (d.offset_at i))
  let spawner_y := generate_wave_y env (WIDTH + 20) s.phase s.runtime
  let spray := d.spray.map (fun q =>
    ({ x := WIDTH - 48 + q.1, y := spawner_y - q.2.1, vx := q.2.2.1, vy := q.2.2.2,
       life := 0.8, start_life := 0.8 } : Particle))
  { s with enemies := s.enemies ++ newcomers, particles := s.particles ++ spray }

/-! ### The collision and combat resolver (main.py:734-784) -/

/-- Inner harpoon loop of main.py:748-767: find the first live harpoon
overlapping the enemy; if one exists, return the harpoon list with exactly
that harpoon's liveness cleared. -/
def harpoon_scan (e : Enemy) : List Harpoon → Option (List Harpoon)
  | [] => none
  | h :: rest =>
    if h.alive ∧ (e.x - h.x) * (e.x - h.x) + (e.y - h.y) * (e.y - h.y)
        ≤ (ENEMY_RADIUS + 6) ^ 2 then
      some ({ h with alive := false } :: rest)
    else
      match harpoon_scan e rest with
      | none => none
      | some rest2 => some (h :: rest2)

/-- Loop body of main.py:734-784 for a single enemy: player contact takes
precedence (`continue` at main.py:746), then the harpoon scan, then the pulse
scan; the two weapon branches each consume one `KillDraw`. -/
def Game.resolve_enemy (env : Env) (e : Enemy) (s : Game) (ds : List KillDraw) :
    Enemy × Game × List KillDraw :=
  if e.alive = false then (e, s, ds)
  else if (e.x - s.player.x) * (e.x - s.player.x) + (e.y - s.player.y) * (e.y - s.player.y)
      ≤ (ENEMY_RADIUS + PLAYER_RADIUS) ^ 2 then
    let player := Player.damage s.player
    ({ e with alive := false },
     { s with player := player,
              state := if player.health ≤ 0 then GState.game_over else s.state },
     ds)
  else
    match harpoon_scan e s.harpoons with
    | some harpoons =>
      let d := ds.headD noDraw
      let player := Player.reward_combo 1 s.player
      let reward : ℚ := 60 + 16 * (player.combo : ℚ)
      let s1 := { s with harpoons := harpoons,
                         player := { player with score := player.score + reward },
                         pulse_energy := min PULSE_ENERGY_MAX (s.pulse_energy + PULSE_GAIN_ON_HIT),
                         kills_this_stage := s.kills_this_stage + 1 }
      ({ e with alive := false },
       Game.check_stage_progression env d (Game.maybe_spawn_special d e.x e.y s1),
       ds.tail)
    | none =>
      if s.pulses.any (fun p => p.alive && Enemy.hit_by_pulse e p) then
        let d := ds.headD noDraw
        let player := Player.reward_combo 1 s.player
        let reward : ℚ := 80 + 20 * (player.combo : ℚ)
        let s1 := { s with player := { player with score := player.score + reward },
                           pulse_energy := min PULSE_ENERGY_MAX
                             (s.pulse_energy + PULSE_GAIN_ON_HIT * 0.5),
                           kills_this_stage := s.kills_this_stage + 1 }
        ({ e with alive := false },
         Game.check_stage_progression env d (Game.maybe_spawn_special d e.x e.y s1),
         ds.tail)
      else (e, s, ds)

/-- The `for enemy in self.enemies` loop of main.py:734-784, threading the
mutated game state and the remaining oracle draws left to right. -/
def Game.combat_fold (env : Env) : List Enemy → Game → List KillDraw →
    List Enemy × Game × List KillDraw
  | [], s, ds => ([], s, ds)
  | e :: rest, s, ds =>
    let r1 := Game.resolve_enemy env e s ds
    let r2 := Game.combat_fold env rest r1.2.1 r1.2.2
    (r1.1 :: r2.1, r2.2.1, r2.2.2)

/-- main.py:798-804: collect special catches against the player position,
incrementing the stock (below its cap) once per newly collected catch. -/
def collect_catches (px py : ℚ) : List SpecialCatch → ℤ → List SpecialCatch × ℤ
  | [], stock => ([], stock)
  | c :: rest, stock =>
    let r := SpecialCatch.collected_by px py c
    let stock1 := if r.2 = true ∧ stock < SPECIAL_MAX_STOCK then stock + 1 else stock
    let rr := collect_catches px py rest stock1
    (r.1 :: rr.1, rr.2)

/-- Inner loop of main.py:869-885: clear up to four live enemies in order,
rewarding combo and score per kill and counting the strikes. -/
def strike_loop : List Enemy → ℕ → Player → ℤ → List Enemy × ℕ × Player × ℤ
  | [], cnt, pl, kills => ([], cnt, pl, kills)
  | e :: rest, cnt, pl, kills =>
    if e.alive = false then
      let r := strike_loop rest cnt pl kills
      (e :: r.1, r.2)
    else
      let pl1 := Player.reward_combo 2 pl
      let pl2 := { pl1 with score := pl1.score + (140 + 24 * (pl1.combo : ℚ)) }
      let cnt1 := cnt + 1
      if cnt1 ≥ 4 then ({ e with alive := false } :: rest, cnt1, pl2, kills + 1)
      else
        let r := strike_loop rest cnt1 pl2 (kills + 1)
        ({ e with alive := false } :: r.1, r.2)

/-- The pulse appended at main.py:888, centered just above the player. -/
def strike_pulse (t : Game) : Pulse :=
  { x := t.player.x, y := t.player.y - 10, r := 0, alive := true }

/-- main.py:869-888, `Game._trigger_special_strike`. -/
def Game.trigger_special_strike (env : Env) (s : Game) (ds : List KillDraw) :
    Game × List KillDraw :=
  let s0 := { s with special_stock := max 0 (s.special_stock - 1) }
  let r := strike_loop s0.enemies 0 s0.player s0.kills_this_stage
  let s1 := { s0 with enemies := r.1, player := r.2.2.1, kills_this_stage := r.2.2.2 }
  if r.2.1 > 0 then
    let s2 := Game.check_stage_progression env (ds.headD noDraw) s1
    ({ s2 with pulses := s2.pulses ++ [strike_pulse s2] }, ds.tail)
  else (s1, ds)

/-! ### The per-tick update (main.py:669-823), split into sequential steps -/

/-- main.py:690-694: advance runtime, wave phase, spawner phase, and the
weapon cooldown. -/
def Game.step_timers (env : Env) (dt : ℚ) (s : Game) : Game :=
  { s with runtime := s.runtime + dt,
           phase := s.phase + WAVE_SPEED * dt,
           spawner_phase := pyMod (s.spawner_phase + dt) env.twoPi,
           shoot_timer := max 0 (s.shoot_timer - dt) }

/-- main.py:695-697: fire on a pending shot when off cooldown, then drop the
intent. -/
def Game.step_fire (s : Game) : Game :=
  let s := if s.pending_shot = true ∧ s.shoot_timer ≤ 0 then Game.fire_harpoon s else s
  { s with pending_shot := false }

/-- main.py:699-705: regenerate pulse energy, trigger a pulse only at full
energy, then drop the intent. -/
def Game.step_pulse_intent (dt : ℚ) (s : Game) : Game :=
  let s := { s with pulse_energy := min PULSE_ENERGY_MAX (s.pulse_energy + dt * 8) }
  let s := if s.pending_pulse = true ∧ s.pulse_energy ≥ PULSE_ENERGY_MAX then
      { s with pulses := s.pulses ++ [{ x := s.player.x, y := s.player.y, r := 0, alive := true }],
               pulse_energy := 0 }
    else s
  { s with pending_pulse := false }

/-- main.py:707-708: rebuild the wave mesh for the frame. -/
def Game.step_mesh (env : Env) (s : Game) : Game :=
  { s with wave_mesh := build_wave_mesh env s.phase s.runtime }

/-- main.py:710-712: consume the jump request and update the player. -/
def Game.step_player (env : Env) (dt : ℚ) (s : Game) : Game :=
  { s with jump_request := none,
           player := Player.update env dt s.phase s.runtime s.jump_request s.player }

/-- main.py:714-717: advance the spawn timer and spawn an enemy wave when it
reaches the interval. -/
def Game.step_spawn (env : Env) (d : WaveDraws) (dt : ℚ) (s : Game) : Game :=
  let s := { s with spawn_timer := s.spawn_timer + dt }
  if s.spawn_timer ≥ s.spawn_interval then
    Game.spawn_enemy_wave env d { s with spawn_timer := 0 }
  else s

/-- main.py:719-732: update enemies, pulses, harpoons, the buoy and the
special catches against the frame's phase and runtime. -/
def Game.step_motion (env : Env) (dt : ℚ) (s : Game) : Game :=
  { s with enemies := s.enemies.map (Enemy.update env dt s.phase s.runtime),
           pulses := s.pulses.map (Pulse.update dt),
           harpoons := s.harpoons.map (Harpoon.update env dt),
           buoy := s.buoy.map (Buoy.update env dt s.phase s.runtime),
           special_catches := s.special_catches.map
             (SpecialCatch.update env dt s.phase s.runtime s.player.x) }

/-- main.py:734-784: run the combat resolver over the enemy collection. -/
def Game.step_combat (env : Env) (ds : List KillDraw) (s : Game) : Game × List KillDraw :=
  let r := Game.combat_fold env s.enemies s ds
  ({ r.2.1 with enemies := r.1 }, r.2.2)

/-- main.py:786-789: purge dead enemies, pulses, harpoons and collected
catches. -/
def Game.step_purge (s : Game) : Game :=
  { s with enemies := s.enemies.filter (fun e => e.alive),
           pulses := s.pulses.filter (fun p => p.alive),
           harpoons := s.harpoons.filter (fun h => h.alive),
           special_catches := s.special_catches.filter (fun c => !c.collected) }

/-- main.py:791-793: update and purge the spray particles. -/
def Game.step_particles (dt : ℚ) (s : Game) : Game :=
  { s with particles := (s.particles.map (Particle.update dt)).filter (fun p => p.life > 0) }

/-- main.py:795-796: advance the stage when the buoy is collected. -/
def Game.step_buoy (s : Game) : Game :=
  match s.buoy with
  | some b => if Buoy.collected_by b s.player.x s.player.y then Game.advance_stage s else s
  | none => s

/-- main.py:798-806: collect special catches, then purge the collected ones. -/
def Game.step_catches (s : Game) : Game :=
  let cc := collect_catches s.player.x s.player.y s.special_catches s.special_stock
  { s with special_catches := cc.1.filter (fun c => !c.collected), special_stock := cc.2 }

/-- main.py:812-814: run the special strike when requested and stocked, then
drop the intent. -/
def Game.step_strike (env : Env) (ds : List KillDraw) (s : Game) : Game :=
  let s := if s.pending_special = true ∧ s.special_stock > 0 then
      (Game.trigger_special_strike env s ds).1
    else s
  { s with pending_special := false }

/-- main.py:816-818: idle combo decay. -/
def Game.step_decay (s : Game) : Game :=
  if s.player.last_combo_time > 4.0 ∧ s.player.combo > 0 then
    let player := { s.player with combo := max 0 (s.player.combo - 1), last_combo_time := 0 }
    { s with player := player }
  else s

/-- main.py:820-823: transition to game over at zero health and track the
high score. -/
def Game.step_finish (s : Game) : Game :=
  let s := if s.player.health ≤ 0 ∧ s.state ≠ GState.game_over then
      { s with state := GState.game_over }
    else s
  { s with high_score := max s.high_score (pyInt s.player.score) }

/-- main.py:690-823: the unpaused gameplay portion of `Game.update`, as the
ordered chain of the steps above. -/
def Game.run_tick (env : Env) (d : TickDraws) (dt : ℚ) (s : Game) : Game :=
  let s := Game.step_timers env dt s
  let s := Game.step_fire s
  let s := Game.step_pulse_intent dt s
  let s := Game.step_mesh env s
  let s := Game.step_player env dt s
  let s := Game.step_spawn env d.wave dt s
  let s := Game.step_motion env dt s
  let r := Game.step_combat env d.kills s
  let s := Game.step_purge r.1
  let s := Game.step_particles dt s
  let s := Game.step_buoy s
  let s := Game.step_catches s
  let s := Game.step_strike env r.2 s
  let s := Game.step_decay s
  Game.step_finish s

/-- main.py:669-823, `Game.update`: the intro timer and transition, the
non-gameplay early return, the banner countdown, the paused early return, and
the gameplay tick. -/
def Game.update (env : Env) (d : TickDraws) (dt : ℚ) (s0 : Game) : Game :=
  let s := { s0 with state_timer := s0.state_timer + dt }
  let s := if s.state = GState.intro ∧ s.state_timer > 2.5 then
      { s with state := GState.gameplay }
    else s
  if s.state ≠ GState.gameplay then
    { s with pending_shot := false, pending_pulse := false, pending_special := false }
  else
    let s := if s.stage_banner_timer > 0 then
        let dec : ℚ := if s.paused = true then 0 else dt
        { s with stage_banner_timer := max 0 (s.stage_banner_timer - dec) }
      else s
    if s.paused = true then
      { s with pending_shot := false, pending_pulse := false, pending_special := false }
    else Game.run_tick env d dt s

/-! ### Concrete instances used by witnesses and counterexamples -/

/-- Sample environment: the zero function stands in for `math.sin`. -/
def env0 : Env := { sin := fun _ => 0, twoPi := 7, nowMs := 0 }

/-- Sample environment with the identity standing in for `math.sin` (used
where a non-constant sine is needed). -/
def envId : Env := { sin := fun q => q, twoPi := 7, nowMs := 0 }

/-- Same as `envId` except for the wall clock. -/
def envIdLater : Env := { sin := fun q => q, twoPi := 7, nowMs := 1000 }

/-- Trivial oracle: no wave spawns anything, no kill draws. -/
def d0 : TickDraws :=
  { wave := { n := 0, spacing := 0, speed_u := 0, variant_at := fun _ => Variant.standard,
              jitter_at := fun _ => 1, offset_at := fun _ => 0, spray := [] },
    kills := [] }

/-- The freshly reset game, switched to the `gameplay` state. -/
def g0 : Game := { Game.init env0 with state := GState.gameplay }

/-- The mathematical form the specification describes: a waterline constant
plus a weighted sum of three sine terms with relative weights 1.0, 0.33 and
0.12, the shared amplitude breathing with a slow sine of elapsed time.  This
definition is written from the specification text, to be compared against
`generate_wave_y`, which is written from the source. -/
def wave_height_per_spec (env : Env) (x phase t : ℚ) : ℚ :=
  let k := env.twoPi / WAVELENGTH
  let a := BASE_AMPLITUDE + AMPLITUDE_SWAY * (0.5 + 0.5 * env.sin (t * 0.3))
  WATERLINE + 1.0 * (a * env.sin (k * x + phase))
    + 0.33 * (a * env.sin (0.5 * k * x - 0.7 * phase + t * 0.6))
    + 0.12 * (a * env.sin (1.7 * k * x + 1.9 * phase))

/-- The only effect `Enemy.update` has left on a dt = 0 tick: a charger
multiplies its own speed by 1.005 per tick (main.py:219), unconditionally on
`dt`. -/
def chargerBoost (e : Enemy) : Enemy :=
  if e.variant = Variant.charger then { e with speed := e.speed * 1.005 } else e

/-- A steady frame boundary: the conditions a gameplay state satisfies at a
frame boundary with no pending intents, spelled out as explicit hypotheses.
They say the tick is an un-paused gameplay tick with no queued intents, the
timers and resources are inside their maintained ranges, the cached fields
(player x/facing, enemy and catch heights, buoy position, wave mesh) agree
with the formulas that recompute them, nothing is pending purge, and no
collision or collection is in contact.  `p'` is the player as the tick's
player update leaves it — its spring-damper state may move, which is exactly
the residual effect the dt = 0 tick is allowed to have. -/
def SteadyFrame (env : Env) (s : Game) : Prop :=
  let p' := Player.update env 0 s.phase s.runtime none s.player
  0 < env.twoPi
  ∧ s.state = GState.gameplay
  ∧ s.paused = false
  ∧ s.pending_shot = false
  ∧ s.pending_pulse = false
  ∧ s.pending_special = false
  ∧ s.jump_request = none
  ∧ 0 ≤ s.spawner_phase
  ∧ s.spawner_phase < env.twoPi
  ∧ 0 ≤ s.shoot_timer
  ∧ s.pulse_energy ≤ PULSE_ENERGY_MAX
  ∧ s.spawn_timer < s.spawn_interval
  ∧ s.player.x = s.player.anchor_x
  ∧ s.player.facing = 1
  ∧ 0 < s.player.health
  ∧ ¬(s.player.last_combo_time > 4 ∧ s.player.combo > 0)
  ∧ pyInt s.player.score ≤ s.high_score
  ∧ s.wave_mesh = build_wave_mesh env s.phase s.runtime
  ∧ (∀ b : Buoy, s.buoy = some b →
      b.x = b.base_x + env.sin (b.phase * 0.7) * 22
      ∧ b.y = generate_wave_y env b.x s.phase s.runtime
          + env.sin ((s.runtime + b.phase) * 1.8) * 6 - 30 + env.sin (b.phase * 1.5) * 5
      ∧ ¬(Buoy.collected_by b p'.x p'.y = true))
  ∧ (∀ e ∈ s.enemies, e.alive = true ∧ ¬(e.x < -40)
      ∧ e.y = Enemy.updated_y env e.variant e.t e.x e.warning e.wave_offset s.phase s.runtime
      ∧ ¬((e.x - p'.x) * (e.x - p'.x) + (e.y - p'.y) * (e.y - p'.y)
            ≤ (ENEMY_RADIUS + PLAYER_RADIUS) ^ 2)
      ∧ (∀ h ∈ s.harpoons, ¬((e.x - h.x) * (e.x - h.x) + (e.y - h.y) * (e.y - h.y)
            ≤ (ENEMY_RADIUS + 6) ^ 2))
      ∧ (∀ pu ∈ s.pulses, ¬(Enemy.hit_by_pulse e pu = true)))
  ∧ (∀ h ∈ s.harpoons, h.alive = true ∧ ¬(h.x < -60 ∨ h.x > WIDTH + 60))
  ∧ (∀ pu ∈ s.pulses, pu.alive = true ∧ ¬(pu.r > PULSE_RADIUS_MAX))
  ∧ (∀ pa ∈ s.particles, pa.life > 0)
  ∧ (∀ c ∈ s.special_catches, c.collected = false
      ∧ c.y = generate_wave_y env c.x s.phase s.runtime - 26
          + env.sin c.phase * 8 + c.float_offset
      ∧ ¬((p'.x - c.x) * (p'.x - c.x) + ((p'.y - 8) - c.y) * ((p'.y - 8) - c.y) ≤ 26 ^ 2))

/-- The state after the player step of a steady dt = 0 tick: only the player
has been rewritten (by the dt-independent spring-damper of main.py:316-324). -/
def steadyMid (env : Env) (s : Game) : Game :=
  { s with player := Player.update env 0 s.phase s.runtime none s.player }

/-- The residue of a whole steady dt = 0 tick: the spring-damper player
update plus the per-tick charger self-acceleration (main.py:219). -/
def steadyPost (env : Env) (s : Game) : Game :=
  { s with player := Player.update env 0 s.phase s.runtime none s.player,
           enemies := List.map chargerBoost s.enemies }

/-- `g0` with its wave mesh rebuilt consistently: a steady boundary state. -/
def gW : Game := { g0 with wave_mesh := build_wave_mesh env0 0 0 }

/-- `g0` with the player lifted far off the waterline (used to exhibit the
spring-damper acting on a dt = 0 tick). -/
def gC : Game := { g0 with player := { g0.player with y := 0 } }

/-- An enemy sitting exactly on the `g0` player (witness input). -/
def eC : Enemy :=
  { x := 288, speed := 2, variant := Variant.standard, alive := true,
    t := 0, y := 1564 / 5, warning := 0, wave_offset := 0 }

/-- `g0` already awaiting its buoy (witness input). -/
def gA : Game := { g0 with awaiting_buoy := true }

/-- The `g0` player with live invulnerability frames (witness input). -/
def pI : Player := { g0.player with iframes := 1 }

/-- `g0` with full pulse energy and a pending pulse intent (witness input). -/
def gF : Game := { g0 with pending_pulse := true, pulse_energy := PULSE_ENERGY_MAX }

/-- A sample special catch (witness input). -/
def sc0 : SpecialCatch :=
  { x := 100, y := 300, phase := 0, float_offset := 0, collected := false }

/-- `g0` with a full stock of five uncollected special catches (witness input). -/
def gS : Game := { g0 with special_catches := [sc0, sc0, sc0, sc0, sc0] }

attribute [ext] Particle Pulse Harpoon Enemy Player Buoy SpecialCatch Game

/-! ## Theorems -/

/-- `Player.update` never reads its jump-request argument (main.py:304-331
bind it as `_jump_request` and never use it). -/
theorem Player.update_jump_irrel (env : Env) (dt phase t : ℚ) (j : Option JumpKind)
    (p : Player) : Player.update env dt phase t j p = Player.update env dt phase t none p :=
  rfl

/-- Carrying a different pending jump request through main.py:690-694 only
changes the `jump_request` field. -/
theorem Game.step_timers_jump (env : Env) (dt : ℚ) (s : Game) (x : Option JumpKind) :
    Game.step_timers env dt { s with jump_request := x }
      = { Game.step_timers env dt s with jump_request := x } :=
  rfl

/-- Carrying a different pending jump request through main.py:695-697 only
changes the `jump_request` field. -/
theorem Game.step_fire_jump (s : Game) (x : Option JumpKind) :
    Game.step_fire { s with jump_request := x }
      = { Game.step_fire s with jump_request := x } := by
  simp only [Game.step_fire, Game.fire_harpoon]
  split <;> rfl

/-- Carrying a different pending jump request through main.py:699-705 only
changes the `jump_request` field. -/
theorem Game.step_pulse_intent_jump (dt : ℚ) (s : Game) (x : Option JumpKind) :
    Game.step_pulse_intent dt { s with jump_request := x }
      = { Game.step_pulse_intent dt s with jump_request := x } := by
  simp only [Game.step_pulse_intent]
  split <;> rfl

/-- Carrying a different pending jump request through main.py:707-708 only
changes the `jump_request` field. -/
theorem Game.step_mesh_jump (env : Env) (s : Game) (x : Option JumpKind) :
    Game.step_mesh env { s with jump_request := x }
      = { Game.step_mesh env s with jump_request := x } :=
  rfl

/-- main.py:710-712 consume the jump request, but its value never matters. -/
theorem Game.step_player_jump (env : Env) (dt : ℚ) (s : Game) (x : Option JumpKind) :
    Game.step_player env dt { s with jump_request := x }
      = Game.step_player env dt { s with jump_request := none } :=
  rfl

/-- The initial segment of the tick up to and including the player update
produces the same state whatever jump request is pending. -/
theorem Game.tick_prefix_jump (env : Env) (dt : ℚ) (s : Game) (x : Option JumpKind) :
    Game.step_player env dt (Game.step_mesh env (Game.step_pulse_intent dt
        (Game.step_fire (Game.step_timers env dt { s with jump_request := x }))))
      = Game.step_player env dt (Game.step_mesh env (Game.step_pulse_intent dt
        (Game.step_fire (Game.step_timers env dt { s with jump_request := none })))) := by
  rw [Game.step_timers_jump env dt s x, Game.step_fire_jump _ x,
    Game.step_pulse_intent_jump _ _ x, Game.step_mesh_jump _ _ x,
    Game.step_player_jump _ _ _ x]
  rw [Game.step_timers_jump env dt s none, Game.step_fire_jump _ none,
    Game.step_pulse_intent_jump _ _ none, Game.step_mesh_jump _ _ none,
    Game.step_player_jump _ _ _ none]

/-- C1 — the claim that a pending jump intent applies an upward velocity
impulse, with a higher multiplier for a double intent, is false of the code:
`Player.update` binds the intent as `_jump_request` and never reads it (the
jump constants of main.py:21-22 are never used), so a gameplay tick produces
the same state whatever jump intent is pending.  The failing behaviour is
stated positively: the tick with a pending single or double jump equals the
tick with no pending jump at all. -/
theorem c1_jump_intent_ignored :
    (∀ (env : Env) (dt phase t : ℚ) (j : JumpKind) (p : Player),
      Player.update env dt phase t (some j) p = Player.update env dt phase t none p)
    ∧ (∀ (env : Env) (d : TickDraws) (dt : ℚ) (s : Game) (j : JumpKind),
      Game.run_tick env d dt { s with jump_request := some j }
        = Game.run_tick env d dt { s with jump_request := none }) := by
  constructor
  · intro env dt phase t j p
    exact Player.update_jump_irrel env dt phase t (some j) p
  · intro env d dt s j
    simp only [Game.run_tick]
    simp only [Game.tick_prefix_jump env dt s (some j)]

/-- C7 — `generate_wave_y` equals the specified form: waterline plus three
sine layers with relative weights 1.0, 0.33, 0.12, with the amplitude itself
breathing via a slow sine of elapsed time.  Since `generate_wave_y` is a pure
Lean function of `(x, phase, t)` (and of the ambient sine), determinism and
absence of side effects hold by construction, and no entity update can mutate
it. -/
theorem c7_wave_height_formula :
    ∀ (env : Env) (x phase t : ℚ),
      generate_wave_y env x phase t = wave_height_per_spec env x phase t := by
  intro env x phase t
  simp only [generate_wave_y, wave_height_per_spec]
  ring

/-- C8 (counterexample) — the harpoon's vertical bob is keyed to the wall
clock (`pygame.time.get_ticks()`, modelled by `Env.nowMs`), not to the
elapsed simulation time: two gameplay ticks from the same game state (in
particular the same `runtime`) with the same `dt` and the same sine function,
differing only in the wall clock, produce different harpoon positions. -/
theorem c8_wall_clock_counterexample :
    envId.sin = envIdLater.sin ∧ envId.twoPi = envIdLater.twoPi
    ∧ envId.nowMs ≠ envIdLater.nowMs
    ∧ (Game.update envId d0 1 { g0 with harpoons := [Harpoon.init 0 0 1] }).harpoons
      ≠ (Game.update envIdLater d0 1 { g0 with harpoons := [Harpoon.init 0 0 1] }).harpoons := by
  refine ⟨rfl, rfl, by norm_num [envId, envIdLater], ?_⟩
  norm_num [Game.update, Game.run_tick, Game.step_timers, Game.step_fire,
    Game.step_pulse_intent, Game.step_mesh, Game.step_player, Game.step_spawn,
    Game.step_motion, Game.step_combat, Game.step_purge, Game.step_particles,
    Game.step_buoy, Game.step_catches, Game.step_strike, Game.step_decay,
    Game.step_finish, Game.combat_fold, Game.init, Game.reset, Player.init,
    Player.update, Player.snap_to_wave, Harpoon.update, Harpoon.init, collect_catches,
    pyMod, pyInt, generate_wave_y, goal_for_stage, ENEMY_SPAWN_EVERY, HARPOON_SPEED,
    PULSE_ENERGY_MAX, WIDTH, HEIGHT, WATERLINE, WAVE_SPEED, BASE_AMPLITUDE,
    AMPLITUDE_SWAY, WAVELENGTH, envId, envIdLater, d0, g0, abs_lt, le_abs]

/-- C8 (amended) — `Harpoon.update` in closed form: it is a pure function of
the harpoon's state, `dt`, and the ambient inputs, advancing `x` by the
velocity `HARPOON_SPEED × direction` baked in at construction, bobbing `y`
by a sine keyed to the wall-clock milliseconds (`Env.nowMs`, i.e.
`pygame.time.get_ticks()`) rather than to simulation runtime, and clearing
the liveness flag exactly when the new `x` exits the horizontal bounds
extended by the margin 60. -/
theorem c8_harpoon_update_amended :
    ∀ (env : Env) (dt : ℚ) (h : Harpoon),
      Harpoon.update env dt h =
        { h with x := h.x + h.vx * dt,
                 y := h.y + env.sin (env.nowMs * 0.002 + (h.x + h.vx * dt) * 0.01) * 10 * dt,
                 alive := if h.x + h.vx * dt < -60 ∨ h.x + h.vx * dt > WIDTH + 60
                   then false else h.alive }
      ∧ ∀ (x y : ℚ) (dir : ℤ),
          (Harpoon.init x y dir).vx = HARPOON_SPEED * (dir : ℚ)
          ∧ (Harpoon.init x y dir).direction = dir :=
  fun _ _ _ => ⟨rfl, fun _ _ _ => ⟨rfl, rfl⟩⟩

/-- C9 — the claim that a negative `dt` is rejected or clamped to zero is
false of the code, which performs no validation of `dt` (main.py:669-700):
on the freshly reset gameplay state, a tick with `dt = -1` moves `runtime`
backwards from `0` to `-1` (and similarly the phase and every other timer).
The spec (§7) requires such a tick to be ignored, so this is recorded as a
bug of the code against the specification. -/
theorem c9_negative_dt_not_ignored :
    (Game.update env0 d0 (-1) g0).runtime = -1 ∧ g0.runtime = 0
    ∧ (Game.update env0 d0 (-1) g0).phase = -WAVE_SPEED ∧ g0.phase = 0 := by
  refine ⟨?_, rfl, ?_, rfl⟩ <;>
  norm_num [Game.update, Game.run_tick, Game.step_timers, Game.step_fire,
    Game.step_pulse_intent, Game.step_mesh, Game.step_player, Game.step_spawn,
    Game.step_motion, Game.step_combat, Game.step_purge, Game.step_particles,
    Game.step_buoy, Game.step_catches, Game.step_strike, Game.step_decay,
    Game.step_finish, Game.combat_fold, Game.init, Game.reset, Player.init,
    Player.update, Player.snap_to_wave, collect_catches,
    pyMod, pyInt, generate_wave_y, goal_for_stage, ENEMY_SPAWN_EVERY,
    PULSE_ENERGY_MAX, WIDTH, HEIGHT, WATERLINE, WAVE_SPEED, BASE_AMPLITUDE,
    AMPLITUDE_SWAY, WAVELENGTH, env0, d0, g0, abs_lt, le_abs]

/-- `Player.damage` never changes the score (main.py:405-410). -/
theorem Player.damage_score (p : Player) : (Player.damage p).score = p.score := by
  simp only [Player.damage]; split <;> rfl

/-- `Player.damage` never changes the anchored position. -/
theorem Player.damage_x (p : Player) : (Player.damage p).x = p.x := by
  simp only [Player.damage]; split <;> rfl

/-- `Player.damage` never changes the best-combo high-water mark. -/
theorem Player.damage_best_combo (p : Player) :
    (Player.damage p).best_combo = p.best_combo := by
  simp only [Player.damage]; split <;> rfl

/-- C4 — per enemy and per tick at most one outcome applies, and player
contact takes precedence (the `continue` of main.py:746): if a live enemy
overlaps the player, the resolver applies exactly the player-contact outcome
(player damaged, enemy cleared, game over on zero health) no matter which
harpoons or pulses also overlap the enemy, and the weapon bookkeeping —
score, pulse energy, kill counter, special-catch spawns, harpoon liveness —
is untouched. -/
theorem c4_player_contact_precedence (env : Env) (e : Enemy) (s : Game)
    (ds : List KillDraw) (halive : e.alive = true)
    (hov : (e.x - s.player.x) * (e.x - s.player.x)
      + (e.y - s.player.y) * (e.y - s.player.y) ≤ (ENEMY_RADIUS + PLAYER_RADIUS) ^ 2) :
    Game.resolve_enemy env e s ds =
      ({ e with alive := false },
       { s with player := Player.damage s.player,
                state := if (Player.damage s.player).health ≤ 0 then GState.game_over
                  else s.state },
       ds)
    ∧ (Game.resolve_enemy env e s ds).2.1.player.score = s.player.score
    ∧ (Game.resolve_enemy env e s ds).2.1.pulse_energy = s.pulse_energy
    ∧ (Game.resolve_enemy env e s ds).2.1.kills_this_stage = s.kills_this_stage
    ∧ (Game.resolve_enemy env e s ds).2.1.special_catches = s.special_catches
    ∧ (Game.resolve_enemy env e s ds).2.1.harpoons = s.harpoons
    ∧ (Game.resolve_enemy env e s ds).1.alive = false := by
  have hmain : Game.resolve_enemy env e s ds =
      ({ e with alive := false },
       { s with player := Player.damage s.player,
                state := if (Player.damage s.player).health ≤ 0 then GState.game_over
                  else s.state },
       ds) := by
    rw [Game.resolve_enemy, if_neg (by simp [halive]), if_pos hov]
  refine ⟨hmain, ?_, ?_, ?_, ?_, ?_, ?_⟩ <;> rw [hmain]
  exact Player.damage_score s.player

/-! ### Field-preservation lemmas for the tick steps

Each lemma records that a step of the tick leaves a particular field of the
game state untouched; they are the frame conditions used by the invariant
proofs below. -/

theorem Game.step_timers_player (env : Env) (dt : ℚ) (s : Game) :
    (Game.step_timers env dt s).player = s.player := rfl

theorem Game.step_timers_state (env : Env) (dt : ℚ) (s : Game) :
    (Game.step_timers env dt s).state = s.state := rfl

theorem Game.step_timers_stage (env : Env) (dt : ℚ) (s : Game) :
    (Game.step_timers env dt s).stage = s.stage := rfl

theorem Game.step_timers_kills (env : Env) (dt : ℚ) (s : Game) :
    (Game.step_timers env dt s).kills_this_stage = s.kills_this_stage := rfl

theorem Game.step_timers_goal (env : Env) (dt : ℚ) (s : Game) :
    (Game.step_timers env dt s).stage_goal = s.stage_goal := rfl

theorem Game.step_timers_awaiting (env : Env) (dt : ℚ) (s : Game) :
    (Game.step_timers env dt s).awaiting_buoy = s.awaiting_buoy := rfl

theorem Game.step_timers_energy (env : Env) (dt : ℚ) (s : Game) :
    (Game.step_timers env dt s).pulse_energy = s.pulse_energy := rfl

theorem Game.step_timers_catches (env : Env) (dt : ℚ) (s : Game) :
    (Game.step_timers env dt s).special_catches = s.special_catches := rfl

theorem Game.step_fire_player (s : Game) : (Game.step_fire s).player = s.player := by
  simp only [Game.step_fire, Game.fire_harpoon]; split <;> rfl

theorem Game.step_fire_state (s : Game) : (Game.step_fire s).state = s.state := by
  simp only [Game.step_fire, Game.fire_harpoon]; split <;> rfl

theorem Game.step_fire_stage (s : Game) : (Game.step_fire s).stage = s.stage := by
  simp only [Game.step_fire, Game.fire_harpoon]; split <;> rfl

theorem Game.step_fire_kills (s : Game) :
    (Game.step_fire s).kills_this_stage = s.kills_this_stage := by
  simp only [Game.step_fire, Game.fire_harpoon]; split <;> rfl

theorem Game.step_fire_goal (s : Game) : (Game.step_fire s).stage_goal = s.stage_goal := by
  simp only [Game.step_fire, Game.fire_harpoon]; split <;> rfl

theorem Game.step_fire_awaiting (s : Game) :
    (Game.step_fire s).awaiting_buoy = s.awaiting_buoy := by
  simp only [Game.step_fire, Game.fire_harpoon]; split <;> rfl

theorem Game.step_fire_energy (s : Game) :
    (Game.step_fire s).pulse_energy = s.pulse_energy := by
  simp only [Game.step_fire, Game.fire_harpoon]; split <;> rfl

theorem Game.step_fire_catches (s : Game) :
    (Game.step_fire s).special_catches = s.special_catches := by
  simp only [Game.step_fire, Game.fire_harpoon]; split <;> rfl

theorem Game.step_pulse_intent_player (dt : ℚ) (s : Game) :
    (Game.step_pulse_intent dt s).player = s.player := by
  simp only [Game.step_pulse_intent]; split <;> rfl

theorem Game.step_pulse_intent_state (dt : ℚ) (s : Game) :
    (Game.step_pulse_intent dt s).state = s.state := by
  simp only [Game.step_pulse_intent]; split <;> rfl

theorem Game.step_pulse_intent_stage (dt : ℚ) (s : Game) :
    (Game.step_pulse_intent dt s).stage = s.stage := by
  simp only [Game.step_pulse_intent]; split <;> rfl

theorem Game.step_pulse_intent_kills (dt : ℚ) (s : Game) :
    (Game.step_pulse_intent dt s).kills_this_stage = s.kills_this_stage := by
  simp only [Game.step_pulse_intent]; split <;> rfl

theorem Game.step_pulse_intent_goal (dt : ℚ) (s : Game) :
    (Game.step_pulse_intent dt s).stage_goal = s.stage_goal := by
  simp only [Game.step_pulse_intent]; split <;> rfl

theorem Game.step_pulse_intent_awaiting (dt : ℚ) (s : Game) :
    (Game.step_pulse_intent dt s).awaiting_buoy = s.awaiting_buoy := by
  simp only [Game.step_pulse_intent]; split <;> rfl

theorem Game.step_pulse_intent_catches (dt : ℚ) (s : Game) :
    (Game.step_pulse_intent dt s).special_catches = s.special_catches := by
  simp only [Game.step_pulse_intent]; split <;> rfl

/-- The pulse-energy value after main.py:699-705 is either the regenerated
value (clamped at the maximum) or zero, after a full-energy pulse fires. -/
theorem Game.step_pulse_intent_energy_cases (dt : ℚ) (s : Game) :
    (Game.step_pulse_intent dt s).pulse_energy
        = min PULSE_ENERGY_MAX (s.pulse_energy + dt * 8)
    ∨ (Game.step_pulse_intent dt s).pulse_energy = 0 := by
  simp only [Game.step_pulse_intent]
  split
  · exact Or.inr rfl
  · exact Or.inl rfl

theorem Game.step_mesh_player (env : Env) (s : Game) :
    (Game.step_mesh env s).player = s.player := rfl

theorem Game.step_mesh_state (env : Env) (s : Game) :
    (Game.step_mesh env s).state = s.state := rfl

theorem Game.step_mesh_stage (env : Env) (s : Game) :
    (Game.step_mesh env s).stage = s.stage := rfl

theorem Game.step_mesh_kills (env : Env) (s : Game) :
    (Game.step_mesh env s).kills_this_stage = s.kills_this_stage := rfl

theorem Game.step_mesh_goal (env : Env) (s : Game) :
    (Game.step_mesh env s).stage_goal = s.stage_goal := rfl

theorem Game.step_mesh_awaiting (env : Env) (s : Game) :
    (Game.step_mesh env s).awaiting_buoy = s.awaiting_buoy := rfl

theorem Game.step_mesh_energy (env : Env) (s : Game) :
    (Game.step_mesh env s).pulse_energy = s.pulse_energy := rfl

theorem Game.step_mesh_catches (env : Env) (s : Game) :
    (Game.step_mesh env s).special_catches = s.special_catches := rfl

theorem Game.step_player_health (env : Env) (dt : ℚ) (s : Game) :
    (Game.step_player env dt s).player.health = s.player.health := rfl

theorem Game.step_player_state (env : Env) (dt : ℚ) (s : Game) :
    (Game.step_player env dt s).state = s.state := rfl

theorem Game.step_player_stage (env : Env) (dt : ℚ) (s : Game) :
    (Game.step_player env dt s).stage = s.stage := rfl

theorem Game.step_player_kills (env : Env) (dt : ℚ) (s : Game) :
    (Game.step_player env dt s).kills_this_stage = s.kills_this_stage := rfl

theorem Game.step_player_goal (env : Env) (dt : ℚ) (s : Game) :
    (Game.step_player env dt s).stage_goal = s.stage_goal := rfl

theorem Game.step_player_awaiting (env : Env) (dt : ℚ) (s : Game) :
    (Game.step_player env dt s).awaiting_buoy = s.awaiting_buoy := rfl

theorem Game.step_player_energy (env : Env) (dt : ℚ) (s : Game) :
    (Game.step_player env dt s).pulse_energy = s.pulse_energy := rfl

theorem Game.step_player_catches (env : Env) (dt : ℚ) (s : Game) :
    (Game.step_player env dt s).special_catches = s.special_catches := rfl

theorem Game.step_spawn_player (env : Env) (d : WaveDraws) (dt : ℚ) (s : Game) :
    (Game.step_spawn env d dt s).player = s.player := by
  simp only [Game.step_spawn, Game.spawn_enemy_wave]; split <;> rfl

theorem Game.step_spawn_state (env : Env) (d : WaveDraws) (dt : ℚ) (s : Game) :
    (Game.step_spawn env d dt s).state = s.state := by
  simp only [Game.step_spawn, Game.spawn_enemy_wave]; split <;> rfl

theorem Game.step_spawn_stage (env : Env) (d : WaveDraws) (dt : ℚ) (s : Game) :
    (Game.step_spawn env d dt s).stage = s.stage := by
  simp only [Game.step_spawn, Game.spawn_enemy_wave]; split <;> rfl

theorem Game.step_spawn_kills (env : Env) (d : WaveDraws) (dt : ℚ) (s : Game) :
    (Game.step_spawn env d dt s).kills_this_stage = s.kills_this_stage := by
  simp only [Game.step_spawn, Game.spawn_enemy_wave]; split <;> rfl

theorem Game.step_spawn_goal (env : Env) (d : WaveDraws) (dt : ℚ) (s : Game) :
    (Game.step_spawn env d dt s).stage_goal = s.stage_goal := by
  simp only [Game.step_spawn, Game.spawn_enemy_wave]; split <;> rfl

theorem Game.step_spawn_awaiting (env : Env) (d : WaveDraws) (dt : ℚ) (s : Game) :
    (Game.step_spawn env d dt s).awaiting_buoy = s.awaiting_buoy := by
  simp only [Game.step_spawn, Game.spawn_enemy_wave]; split <;> rfl

theorem Game.step_spawn_energy (env : Env) (d : WaveDraws) (dt : ℚ) (s : Game) :
    (Game.step_spawn env d dt s).pulse_energy = s.pulse_energy := by
  simp only [Game.step_spawn, Game.spawn_enemy_wave]; split <;> rfl

theorem Game.step_spawn_catches (env : Env) (d : WaveDraws) (dt : ℚ) (s : Game) :
    (Game.step_spawn env d dt s).special_catches = s.special_catches := by
  simp only [Game.step_spawn, Game.spawn_enemy_wave]; split <;> rfl

theorem Game.step_motion_player (env : Env) (dt : ℚ) (s : Game) :
    (Game.step_motion env dt s).player = s.player := rfl

theorem Game.step_motion_state (env : Env) (dt : ℚ) (s : Game) :
    (Game.step_motion env dt s).state = s.state := rfl

theorem Game.step_motion_stage (env : Env) (dt : ℚ) (s : Game) :
    (Game.step_motion env dt s).stage = s.stage := rfl

theorem Game.step_motion_kills (env : Env) (dt : ℚ) (s : Game) :
    (Game.step_motion env dt s).kills_this_stage = s.kills_this_stage := rfl

theorem Game.step_motion_goal (env : Env) (dt : ℚ) (s : Game) :
    (Game.step_motion env dt s).stage_goal = s.stage_goal := rfl

theorem Game.step_motion_awaiting (env : Env) (dt : ℚ) (s : Game) :
    (Game.step_motion env dt s).awaiting_buoy = s.awaiting_buoy := rfl

theorem Game.step_motion_energy (env : Env) (dt : ℚ) (s : Game) :
    (Game.step_motion env dt s).pulse_energy = s.pulse_energy := rfl

theorem Game.step_motion_catches_length (env : Env) (dt : ℚ) (s : Game) :
    (Game.step_motion env dt s).special_catches.length = s.special_catches.length := by
  simp [Game.step_motion]

theorem Game.step_purge_player (s : Game) : (Game.step_purge s).player = s.player := rfl

theorem Game.step_purge_state (s : Game) : (Game.step_purge s).state = s.state := rfl

theorem Game.step_purge_stage (s : Game) : (Game.step_purge s).stage = s.stage := rfl

theorem Game.step_purge_kills (s : Game) :
    (Game.step_purge s).kills_this_stage = s.kills_this_stage := rfl

theorem Game.step_purge_goal (s : Game) :
    (Game.step_purge s).stage_goal = s.stage_goal := rfl

theorem Game.step_purge_awaiting (s : Game) :
    (Game.step_purge s).awaiting_buoy = s.awaiting_buoy := rfl

theorem Game.step_purge_energy (s : Game) :
    (Game.step_purge s).pulse_energy = s.pulse_energy := rfl

theorem Game.step_purge_catches_length (s : Game) :
    (Game.step_purge s).special_catches.length ≤ s.special_catches.length := by
  simpa using List.length_filter_le (fun c => !c.collected) s.special_catches

theorem Game.step_particles_player (dt : ℚ) (s : Game) :
    (Game.step_particles dt s).player = s.player := rfl

theorem Game.step_particles_state (dt : ℚ) (s : Game) :
    (Game.step_particles dt s).state = s.state := rfl

theorem Game.step_particles_stage (dt : ℚ) (s : Game) :
    (Game.step_particles dt s).stage = s.stage := rfl

theorem Game.step_particles_kills (dt : ℚ) (s : Game) :
    (Game.step_particles dt s).kills_this_stage = s.kills_this_stage := rfl

theorem Game.step_particles_goal (dt : ℚ) (s : Game) :
    (Game.step_particles dt s).stage_goal = s.stage_goal := rfl

theorem Game.step_particles_awaiting (dt : ℚ) (s : Game) :
    (Game.step_particles dt s).awaiting_buoy = s.awaiting_buoy := rfl

theorem Game.step_particles_energy (dt : ℚ) (s : Game) :
    (Game.step_particles dt s).pulse_energy = s.pulse_energy := rfl

theorem Game.step_particles_catches (dt : ℚ) (s : Game) :
    (Game.step_particles dt s).special_catches = s.special_catches := rfl

/-! ### Lemmas about the progression helpers -/

theorem Game.check_player (env : Env) (d : KillDraw) (s : Game) :
    (Game.check_stage_progression env d s).player = s.player := by
  simp only [Game.check_stage_progression]; split_ifs <;> rfl

theorem Game.check_state (env : Env) (d : KillDraw) (s : Game) :
    (Game.check_stage_progression env d s).state = s.state := by
  simp only [Game.check_stage_progression]; split_ifs <;> rfl

theorem Game.check_stage (env : Env) (d : KillDraw) (s : Game) :
    (Game.check_stage_progression env d s).stage = s.stage := by
  simp only [Game.check_stage_progression]; split_ifs <;> rfl

theorem Game.check_energy (env : Env) (d : KillDraw) (s : Game) :
    (Game.check_stage_progression env d s).pulse_energy = s.pulse_energy := by
  simp only [Game.check_stage_progression]; split_ifs <;> rfl

theorem Game.check_catches (env : Env) (d : KillDraw) (s : Game) :
    (Game.check_stage_progression env d s).special_catches = s.special_catches := by
  simp only [Game.check_stage_progression]; split_ifs <;> rfl

/-- After `_check_stage_progression`, the awaiting-buoy clamp holds
unconditionally: whenever the gate is set, the kill counter is at most the
quota (main.py:832-847 clamp it in every branch that can leave the gate
set). -/
theorem Game.check_clamp (env : Env) (d : KillDraw) (s : Game) :
    (Game.check_stage_progression env d s).awaiting_buoy = true →
      (Game.check_stage_progression env d s).kills_this_stage
        ≤ (Game.check_stage_progression env d s).stage_goal := by
  simp only [Game.check_stage_progression]
  split_ifs with h1 h2 h3
  · intro _; exact min_le_right _ _
  · intro _; exact min_le_right _ _
  · intro _; exact le_refl _
  · intro hA; simp_all

theorem Game.maybe_spawn_player (d : KillDraw) (x y : ℚ) (s : Game) :
    (Game.maybe_spawn_special d x y s).player = s.player := by
  simp only [Game.maybe_spawn_special]; split_ifs <;> rfl

theorem Game.maybe_spawn_state (d : KillDraw) (x y : ℚ) (s : Game) :
    (Game.maybe_spawn_special d x y s).state = s.state := by
  simp only [Game.maybe_spawn_special]; split_ifs <;> rfl

theorem Game.maybe_spawn_stage (d : KillDraw) (x y : ℚ) (s : Game) :
    (Game.maybe_spawn_special d x y s).stage = s.stage := by
  simp only [Game.maybe_spawn_special]; split_ifs <;> rfl

theorem Game.maybe_spawn_kills (d : KillDraw) (x y : ℚ) (s : Game) :
    (Game.maybe_spawn_special d x y s).kills_this_stage = s.kills_this_stage := by
  simp only [Game.maybe_spawn_special]; split_ifs <;> rfl

theorem Game.maybe_spawn_goal (d : KillDraw) (x y : ℚ) (s : Game) :
    (Game.maybe_spawn_special d x y s).stage_goal = s.stage_goal := by
  simp only [Game.maybe_spawn_special]; split_ifs <;> rfl

theorem Game.maybe_spawn_awaiting (d : KillDraw) (x y : ℚ) (s : Game) :
    (Game.maybe_spawn_special d x y s).awaiting_buoy = s.awaiting_buoy := by
  simp only [Game.maybe_spawn_special]; split_ifs <;> rfl

theorem Game.maybe_spawn_energy (d : KillDraw) (x y : ℚ) (s : Game) :
    (Game.maybe_spawn_special d x y s).pulse_energy = s.pulse_energy := by
  simp only [Game.maybe_spawn_special]; split_ifs <;> rfl

/-- The special-catch spawn keeps the collection within the cap: it appends
at most one catch and only when strictly below `SPECIAL_MAX_STOCK`. -/
theorem Game.maybe_spawn_length (d : KillDraw) (x y : ℚ) (s : Game)
    (h : s.special_catches.length ≤ 5) :
    (Game.maybe_spawn_special d x y s).special_catches.length ≤ 5 := by
  simp only [Game.maybe_spawn_special, SPECIAL_MAX_STOCK]
  split_ifs with h1 h2
  · exact h
  · exact h
  · have : s.special_catches.length < 5 := by exact_mod_cast lt_of_not_le h1
    simp [this]
    omega

theorem Game.advance_player (s : Game) : (Game.advance_stage s).player = s.player := by
  simp only [Game.advance_stage]; split <;> rfl

theorem Game.advance_state (s : Game) : (Game.advance_stage s).state = s.state := by
  simp only [Game.advance_stage]; split <;> rfl

theorem Game.advance_energy (s : Game) :
    (Game.advance_stage s).pulse_energy = s.pulse_energy := by
  simp only [Game.advance_stage]; split <;> rfl

theorem Game.advance_catches (s : Game) :
    (Game.advance_stage s).special_catches = s.special_catches := by
  simp only [Game.advance_stage]; split <;> rfl

/-- `_advance_stage` either leaves the state unchanged (gate not set) or
performs exactly the stage advance. -/
theorem Game.advance_cases (s : Game) :
    (s.awaiting_buoy = false ∧ Game.advance_stage s = s)
    ∨ (s.awaiting_buoy = true
        ∧ (Game.advance_stage s).stage = s.stage + 1
        ∧ (Game.advance_stage s).kills_this_stage = 0
        ∧ (Game.advance_stage s).stage_goal = goal_for_stage (s.stage + 1)
        ∧ (Game.advance_stage s).awaiting_buoy = false) := by
  by_cases h : s.awaiting_buoy = false
  · exact Or.inl ⟨h, by simp only [Game.advance_stage]; rw [if_pos h]⟩
  · have h' : s.awaiting_buoy = true := by revert h; cases s.awaiting_buoy <;> simp
    refine Or.inr ⟨h', ?_, ?_, ?_, ?_⟩ <;>
      simp only [Game.advance_stage] <;> rw [if_neg (by simp [h'])]

/-- main.py:795-796 either do nothing or perform the stage advance. -/
theorem Game.step_buoy_cases (s : Game) :
    Game.step_buoy s = s ∨ Game.step_buoy s = Game.advance_stage s := by
  unfold Game.step_buoy
  cases s.buoy with
  | none => exact Or.inl rfl
  | some b =>
    by_cases h : Buoy.collected_by b s.player.x s.player.y = true
    · exact Or.inr (by simp [h])
    · exact Or.inl (by simp [h])

/-- main.py:798-804 mark catches but never create or drop list entries; the
purge at main.py:806 is separate. -/
theorem collect_catches_length (px py : ℚ) (cs : List SpecialCatch) (stock : ℤ) :
    (collect_catches px py cs stock).1.length = cs.length := by
  induction cs generalizing stock with
  | nil => rfl
  | cons c rest ih => simp [collect_catches, ih]

theorem Game.step_catches_player (s : Game) : (Game.step_catches s).player = s.player := rfl

theorem Game.step_catches_state (s : Game) : (Game.step_catches s).state = s.state := rfl

theorem Game.step_catches_stage (s : Game) : (Game.step_catches s).stage = s.stage := rfl

theorem Game.step_catches_kills (s : Game) :
    (Game.step_catches s).kills_this_stage = s.kills_this_stage := rfl

theorem Game.step_catches_goal (s : Game) :
    (Game.step_catches s).stage_goal = s.stage_goal := rfl

theorem Game.step_catches_awaiting (s : Game) :
    (Game.step_catches s).awaiting_buoy = s.awaiting_buoy := rfl

theorem Game.step_catches_energy (s : Game) :
    (Game.step_catches s).pulse_energy = s.pulse_energy := rfl

theorem Game.step_catches_length (s : Game) (h : s.special_catches.length ≤ 5) :
    (Game.step_catches s).special_catches.length ≤ 5 := by
  simp only [Game.step_catches]
  calc ((collect_catches s.player.x s.player.y s.special_catches s.special_stock).1.filter
          (fun c => !c.collected)).length
      ≤ (collect_catches s.player.x s.player.y s.special_catches s.special_stock).1.length :=
        List.length_filter_le _ _
    _ = s.special_catches.length := collect_catches_length _ _ _ _
    _ ≤ 5 := h

theorem Game.step_decay_health (s : Game) :
    (Game.step_decay s).player.health = s.player.health := by
  simp only [Game.step_decay]; split <;> rfl

theorem Game.step_decay_iframes (s : Game) :
    (Game.step_decay s).player.iframes = s.player.iframes := by
  simp only [Game.step_decay]; split <;> rfl

theorem Game.step_decay_state (s : Game) : (Game.step_decay s).state = s.state := by
  simp only [Game.step_decay]; split <;> rfl

theorem Game.step_decay_stage (s : Game) : (Game.step_decay s).stage = s.stage := by
  simp only [Game.step_decay]; split <;> rfl

theorem Game.step_decay_kills (s : Game) :
    (Game.step_decay s).kills_this_stage = s.kills_this_stage := by
  simp only [Game.step_decay]; split <;> rfl

theorem Game.step_decay_goal (s : Game) :
    (Game.step_decay s).stage_goal = s.stage_goal := by
  simp only [Game.step_decay]; split <;> rfl

theorem Game.step_decay_awaiting (s : Game) :
    (Game.step_decay s).awaiting_buoy = s.awaiting_buoy := by
  simp only [Game.step_decay]; split <;> rfl

theorem Game.step_decay_energy (s : Game) :
    (Game.step_decay s).pulse_energy = s.pulse_energy := by
  simp only [Game.step_decay]; split <;> rfl

theorem Game.step_decay_catches (s : Game) :
    (Game.step_decay s).special_catches = s.special_catches := by
  simp only [Game.step_decay]; split <;> rfl

theorem Game.step_finish_health (s : Game) :
    (Game.step_finish s).player.health = s.player.health := by
  simp only [Game.step_finish]; split <;> rfl

theorem Game.step_finish_stage (s : Game) : (Game.step_finish s).stage = s.stage := by
  simp only [Game.step_finish]; split <;> rfl

theorem Game.step_finish_kills (s : Game) :
    (Game.step_finish s).kills_this_stage = s.kills_this_stage := by
  simp only [Game.step_finish]; split <;> rfl

theorem Game.step_finish_goal (s : Game) :
    (Game.step_finish s).stage_goal = s.stage_goal := by
  simp only [Game.step_finish]; split <;> rfl

theorem Game.step_finish_awaiting (s : Game) :
    (Game.step_finish s).awaiting_buoy = s.awaiting_buoy := by
  simp only [Game.step_finish]; split <;> rfl

theorem Game.step_finish_energy (s : Game) :
    (Game.step_finish s).pulse_energy = s.pulse_energy := by
  simp only [Game.step_finish]; split <;> rfl

theorem Game.step_finish_catches (s : Game) :
    (Game.step_finish s).special_catches = s.special_catches := by
  simp only [Game.step_finish]; split <;> rfl

/-- main.py:820-821 guarantee the game-over transition at zero health. -/
theorem Game.step_finish_game_over (s : Game) (h : (Game.step_finish s).player.health ≤ 0) :
    (Game.step_finish s).state = GState.game_over := by
  rw [Game.step_finish_health] at h
  simp only [Game.step_finish]
  split_ifs with h1
  · rfl
  · rcases not_and_or.mp h1 with h2 | h2
    · exact absurd h h2
    · simpa using h2

/-! ### Lemmas about the combat resolver -/

/-- `Player.damage` is a no-op while iframes are running (main.py:406). -/
theorem Player.damage_noop (p : Player) (h : 0 < p.iframes) : Player.damage p = p := by
  unfold Player.damage
  rw [if_neg (not_le.mpr h)]

/-- `Player.damage` with expired iframes: health drops by exactly one, the
iframes window restarts at 1 second, and the combo resets. -/
theorem Player.damage_hit (p : Player) (h : p.iframes ≤ 0) :
    (Player.damage p).health = p.health - 1 ∧ (Player.damage p).iframes = 1
      ∧ (Player.damage p).combo = 0 := by
  unfold Player.damage
  rw [if_pos h]
  refine ⟨rfl, ?_, rfl⟩
  show (1.0 : ℚ) = 1
  norm_num

theorem Player.reward_combo_health (n : ℤ) (p : Player) :
    (Player.reward_combo n p).health = p.health := rfl

theorem Player.reward_combo_iframes (n : ℤ) (p : Player) :
    (Player.reward_combo n p).iframes = p.iframes := rfl

/-- The per-enemy resolver never changes the stage number: weapon kills only
feed `_check_stage_progression`, which never increments the stage. -/
theorem Game.resolve_stage (env : Env) (e : Enemy) (s : Game) (ds : List KillDraw) :
    (Game.resolve_enemy env e s ds).2.1.stage = s.stage := by
  unfold Game.resolve_enemy
  split
  · rfl
  split
  · rfl
  split
  · rw [Game.check_stage, Game.maybe_spawn_stage]
  split
  · rw [Game.check_stage, Game.maybe_spawn_stage]
  · rfl

/-- The per-enemy resolver preserves the awaiting-buoy clamp invariant. -/
theorem Game.resolve_clamp (env : Env) (e : Enemy) (s : Game) (ds : List KillDraw)
    (hP : s.awaiting_buoy = true → s.kills_this_stage ≤ s.stage_goal) :
    (Game.resolve_enemy env e s ds).2.1.awaiting_buoy = true →
      (Game.resolve_enemy env e s ds).2.1.kills_this_stage
        ≤ (Game.resolve_enemy env e s ds).2.1.stage_goal := by
  unfold Game.resolve_enemy
  split
  · exact hP
  split
  · exact hP
  split
  · exact Game.check_clamp env _ _
  split
  · exact Game.check_clamp env _ _
  · exact hP

/-- The per-enemy resolver keeps the pulse energy within its bounds. -/
theorem Game.resolve_energy (env : Env) (e : Enemy) (s : Game) (ds : List KillDraw)
    (h0 : 0 ≤ s.pulse_energy) (h1 : s.pulse_energy ≤ PULSE_ENERGY_MAX) :
    0 ≤ (Game.resolve_enemy env e s ds).2.1.pulse_energy
      ∧ (Game.resolve_enemy env e s ds).2.1.pulse_energy ≤ PULSE_ENERGY_MAX := by
  unfold Game.resolve_enemy
  split
  · exact ⟨h0, h1⟩
  split
  · exact ⟨h0, h1⟩
  split
  · rw [Game.check_energy, Game.maybe_spawn_energy]
    constructor
    · refine le_min (by norm_num [PULSE_ENERGY_MAX]) ?_
      have : (0 : ℚ) ≤ PULSE_GAIN_ON_HIT := by norm_num [PULSE_GAIN_ON_HIT]
      linarith
    · exact min_le_left _ _
  split
  · rw [Game.check_energy, Game.maybe_spawn_energy]
    constructor
    · refine le_min (by norm_num [PULSE_ENERGY_MAX]) ?_
      have : (0 : ℚ) ≤ PULSE_GAIN_ON_HIT * 0.5 := by norm_num [PULSE_GAIN_ON_HIT]
      linarith
    · exact min_le_left _ _
  · exact ⟨h0, h1⟩

/-- The per-enemy resolver keeps the special-catch collection within its
cap. -/
theorem Game.resolve_catches_length (env : Env) (e : Enemy) (s : Game) (ds : List KillDraw)
    (h : s.special_catches.length ≤ 5) :
    (Game.resolve_enemy env e s ds).2.1.special_catches.length ≤ 5 := by
  unfold Game.resolve_enemy
  split
  · exact h
  split
  · exact h
  split
  · rw [Game.check_catches]
    exact Game.maybe_spawn_length _ _ _ _ h
  split
  · rw [Game.check_catches]
    exact Game.maybe_spawn_length _ _ _ _ h
  · exact h

/-- While iframes are running, the per-enemy resolver changes neither health
nor the iframes value. -/
theorem Game.resolve_health_pos (env : Env) (e : Enemy) (s : Game) (ds : List KillDraw)
    (h : 0 < s.player.iframes) :
    (Game.resolve_enemy env e s ds).2.1.player.health = s.player.health
      ∧ (Game.resolve_enemy env e s ds).2.1.player.iframes = s.player.iframes := by
  unfold Game.resolve_enemy
  split
  · exact ⟨rfl, rfl⟩
  split
  · constructor <;> simp [Player.damage_noop s.player h]
  split
  · rw [Game.check_player, Game.maybe_spawn_player]
    exact ⟨rfl, rfl⟩
  split
  · rw [Game.check_player, Game.maybe_spawn_player]
    exact ⟨rfl, rfl⟩
  · exact ⟨rfl, rfl⟩

/-- The per-enemy resolver either leaves health and iframes alone, or (only
with expired iframes) applies exactly one heart of damage and restarts the
iframes window. -/
theorem Game.resolve_health_cases (env : Env) (e : Enemy) (s : Game) (ds : List KillDraw) :
    ((Game.resolve_enemy env e s ds).2.1.player.health = s.player.health
      ∧ (Game.resolve_enemy env e s ds).2.1.player.iframes = s.player.iframes)
    ∨ (s.player.iframes ≤ 0
      ∧ (Game.resolve_enemy env e s ds).2.1.player.health = s.player.health - 1
      ∧ (Game.resolve_enemy env e s ds).2.1.player.iframes = 1) := by
  unfold Game.resolve_enemy
  split
  · exact Or.inl ⟨rfl, rfl⟩
  split
  · by_cases hif : s.player.iframes ≤ 0
    · rcases Player.damage_hit s.player hif with ⟨h1, h2, _⟩
      exact Or.inr ⟨hif, by simpa using h1, by simpa using h2⟩
    · have := Player.damage_noop s.player (lt_of_not_le hif)
      exact Or.inl ⟨by simp [this], by simp [this]⟩
  split
  · rw [Game.check_player, Game.maybe_spawn_player]
    exact Or.inl ⟨rfl, rfl⟩
  split
  · rw [Game.check_player, Game.maybe_spawn_player]
    exact Or.inl ⟨rfl, rfl⟩
  · exact Or.inl ⟨rfl, rfl⟩

/-! ### Lemmas about the combat fold -/

theorem Game.combat_fold_stage (env : Env) (es : List Enemy) (s : Game)
    (ds : List KillDraw) : (Game.combat_fold env es s ds).2.1.stage = s.stage := by
  induction es generalizing s ds with
  | nil => rfl
  | cons e rest ih =>
    simp only [Game.combat_fold]
    rw [ih]
    exact Game.resolve_stage env e s ds

theorem Game.combat_fold_clamp (env : Env) (es : List Enemy) (s : Game)
    (ds : List KillDraw)
    (hP : s.awaiting_buoy = true → s.kills_this_stage ≤ s.stage_goal) :
    (Game.combat_fold env es s ds).2.1.awaiting_buoy = true →
      (Game.combat_fold env es s ds).2.1.kills_this_stage
        ≤ (Game.combat_fold env es s ds).2.1.stage_goal := by
  induction es generalizing s ds with
  | nil => exact hP
  | cons e rest ih =>
    simp only [Game.combat_fold]
    exact ih _ _ (Game.resolve_clamp env e s ds hP)

theorem Game.combat_fold_energy (env : Env) (es : List Enemy) (s : Game)
    (ds : List KillDraw) (h0 : 0 ≤ s.pulse_energy) (h1 : s.pulse_energy ≤ PULSE_ENERGY_MAX) :
    0 ≤ (Game.combat_fold env es s ds).2.1.pulse_energy
      ∧ (Game.combat_fold env es s ds).2.1.pulse_energy ≤ PULSE_ENERGY_MAX := by
  induction es generalizing s ds with
  | nil => exact ⟨h0, h1⟩
  | cons e rest ih =>
    simp only [Game.combat_fold]
    rcases Game.resolve_energy env e s ds h0 h1 with ⟨g0, g1⟩
    exact ih _ _ g0 g1

theorem Game.combat_fold_catches_length (env : Env) (es : List Enemy) (s : Game)
    (ds : List KillDraw) (h : s.special_catches.length ≤ 5) :
    (Game.combat_fold env es s ds).2.1.special_catches.length ≤ 5 := by
  induction es generalizing s ds with
  | nil => exact h
  | cons e rest ih =>
    simp only [Game.combat_fold]
    exact ih _ _ (Game.resolve_catches_length env e s ds h)

theorem Game.combat_fold_health_pos (env : Env) (es : List Enemy) (s : Game)
    (ds : List KillDraw) (h : 0 < s.player.iframes) :
    (Game.combat_fold env es s ds).2.1.player.health = s.player.health
      ∧ (Game.combat_fold env es s ds).2.1.player.iframes = s.player.iframes := by
  induction es generalizing s ds with
  | nil => exact ⟨rfl, rfl⟩
  | cons e rest ih =>
    simp only [Game.combat_fold]
    rcases Game.resolve_health_pos env e s ds h with ⟨g1, g2⟩
    have h' : 0 < (Game.resolve_enemy env e s ds).2.1.player.iframes := g2 ▸ h
    rcases ih (Game.resolve_enemy env e s ds).2.1 (Game.resolve_enemy env e s ds).2.2 h'
      with ⟨k1, k2⟩
    exact ⟨k1.trans g1, k2.trans g2⟩

/-- Over a whole combat pass the player loses at most one heart: the first
damaging contact restarts the iframes window, which blocks any further
damage in the same pass. -/
theorem Game.combat_fold_health_cases (env : Env) (es : List Enemy) (s : Game)
    (ds : List KillDraw) :
    (Game.combat_fold env es s ds).2.1.player.health = s.player.health
    ∨ ((Game.combat_fold env es s ds).2.1.player.health = s.player.health - 1
        ∧ s.player.iframes ≤ 0) := by
  induction es generalizing s ds with
  | nil => exact Or.inl rfl
  | cons e rest ih =>
    simp only [Game.combat_fold]
    rcases Game.resolve_health_cases env e s ds with ⟨g1, g2⟩ | ⟨hif, g1, g2⟩
    · rcases ih (Game.resolve_enemy env e s ds).2.1 (Game.resolve_enemy env e s ds).2.2
        with k | ⟨k, kif⟩
      · exact Or.inl (k.trans g1)
      · exact Or.inr ⟨by rw [k, g1], g2 ▸ kif⟩
    · have hpos : 0 < (Game.resolve_enemy env e s ds).2.1.player.iframes := by
        rw [g2]; norm_num
      rcases Game.combat_fold_health_pos env rest (Game.resolve_enemy env e s ds).2.1
        (Game.resolve_enemy env e s ds).2.2 hpos with ⟨k1, _⟩
      exact Or.inr ⟨k1.trans g1, hif⟩

/-! ### Lemmas about the special strike -/

theorem strike_loop_health (es : List Enemy) (cnt : ℕ) (pl : Player) (k : ℤ) :
    (strike_loop es cnt pl k).2.2.1.health = pl.health
      ∧ (strike_loop es cnt pl k).2.2.1.iframes = pl.iframes := by
  induction es generalizing cnt pl k with
  | nil => exact ⟨rfl, rfl⟩
  | cons e rest ih =>
    simp only [strike_loop]
    split
    · exact ih cnt pl k
    · split
      · exact ⟨rfl, rfl⟩
      · exact ih _ _ _

theorem strike_loop_cnt_le (es : List Enemy) (cnt : ℕ) (pl : Player) (k : ℤ) :
    cnt ≤ (strike_loop es cnt pl k).2.1 := by
  induction es generalizing cnt pl k with
  | nil => exact le_refl cnt
  | cons e rest ih =>
    simp only [strike_loop]
    split
    · exact ih cnt pl k
    · split
      · exact Nat.le_succ cnt
      · exact le_trans (Nat.le_succ cnt) (ih _ _ _)

/-- The strike counter strictly moves whenever the loop starts on a live
enemy. -/
theorem strike_loop_cnt_ne (es : List Enemy) (cnt : ℕ) (pl : Player) (k : ℤ) :
    ¬ (strike_loop es (cnt + 1) pl k).2.1 = cnt := by
  have := strike_loop_cnt_le es (cnt + 1) pl k
  omega

/-- A strike that cleared nothing left the kill counter alone. -/
theorem strike_loop_kills_of_cnt (es : List Enemy) (cnt : ℕ) (pl : Player) (k : ℤ)
    (h : (strike_loop es cnt pl k).2.1 = cnt) : (strike_loop es cnt pl k).2.2.2 = k := by
  induction es generalizing cnt pl k with
  | nil => rfl
  | cons e rest ih =>
    revert h
    simp only [strike_loop]
    split
    · exact fun h => ih cnt pl k h
    · split
      · intro h
        have hcc : cnt + 1 = cnt := h
        exact absurd hcc (by omega)
      · intro h
        exact absurd h (strike_loop_cnt_ne _ _ _ _)

theorem Game.strike_wrap_player (t : Game) :
    ({ t with pulses := t.pulses ++ [strike_pulse t] } : Game).player = t.player := rfl

theorem Game.strike_wrap_state (t : Game) :
    ({ t with pulses := t.pulses ++ [strike_pulse t] } : Game).state = t.state := rfl

theorem Game.strike_wrap_stage (t : Game) :
    ({ t with pulses := t.pulses ++ [strike_pulse t] } : Game).stage = t.stage := rfl

theorem Game.strike_wrap_energy (t : Game) :
    ({ t with pulses := t.pulses ++ [strike_pulse t] } : Game).pulse_energy
      = t.pulse_energy := rfl

theorem Game.strike_wrap_catches (t : Game) :
    ({ t with pulses := t.pulses ++ [strike_pulse t] } : Game).special_catches
      = t.special_catches := rfl

theorem Game.strike_wrap_awaiting (t : Game) :
    ({ t with pulses := t.pulses ++ [strike_pulse t] } : Game).awaiting_buoy
      = t.awaiting_buoy := rfl

theorem Game.strike_wrap_kills (t : Game) :
    ({ t with pulses := t.pulses ++ [strike_pulse t] } : Game).kills_this_stage
      = t.kills_this_stage := rfl

theorem Game.strike_wrap_goal (t : Game) :
    ({ t with pulses := t.pulses ++ [strike_pulse t] } : Game).stage_goal
      = t.stage_goal := rfl

theorem Game.trigger_health (env : Env) (s : Game) (ds : List KillDraw) :
    (Game.trigger_special_strike env s ds).1.player.health = s.player.health
      ∧ (Game.trigger_special_strike env s ds).1.player.iframes = s.player.iframes := by
  simp only [Game.trigger_special_strike]
  split
  · rw [Game.strike_wrap_player, Game.check_player]
    exact strike_loop_health _ _ _ _
  · exact strike_loop_health _ _ _ _

theorem Game.trigger_state (env : Env) (s : Game) (ds : List KillDraw) :
    (Game.trigger_special_strike env s ds).1.state = s.state := by
  simp only [Game.trigger_special_strike]
  split
  · rw [Game.strike_wrap_state]
    exact Game.check_state env _ _
  · rfl

theorem Game.trigger_stage (env : Env) (s : Game) (ds : List KillDraw) :
    (Game.trigger_special_strike env s ds).1.stage = s.stage := by
  simp only [Game.trigger_special_strike]
  split
  · rw [Game.strike_wrap_stage]
    exact Game.check_stage env _ _
  · rfl

theorem Game.trigger_energy (env : Env) (s : Game) (ds : List KillDraw) :
    (Game.trigger_special_strike env s ds).1.pulse_energy = s.pulse_energy := by
  simp only [Game.trigger_special_strike]
  split
  · rw [Game.strike_wrap_energy]
    exact Game.check_energy env _ _
  · rfl

theorem Game.trigger_catches (env : Env) (s : Game) (ds : List KillDraw) :
    (Game.trigger_special_strike env s ds).1.special_catches = s.special_catches := by
  simp only [Game.trigger_special_strike]
  split
  · rw [Game.strike_wrap_catches]
    exact Game.check_catches env _ _
  · rfl

theorem Game.trigger_clamp (env : Env) (s : Game) (ds : List KillDraw)
    (hP : s.awaiting_buoy = true → s.kills_this_stage ≤ s.stage_goal) :
    (Game.trigger_special_strike env s ds).1.awaiting_buoy = true →
      (Game.trigger_special_strike env s ds).1.kills_this_stage
        ≤ (Game.trigger_special_strike env s ds).1.stage_goal := by
  simp only [Game.trigger_special_strike]
  split
  · rw [Game.strike_wrap_awaiting, Game.strike_wrap_kills, Game.strike_wrap_goal]
    exact Game.check_clamp env _ _
  · rename_i hcnt
    have h0 : (strike_loop s.enemies 0 s.player s.kills_this_stage).2.1 = 0 := by omega
    have hk := strike_loop_kills_of_cnt s.enemies 0 s.player s.kills_this_stage h0
    intro hA
    show (strike_loop s.enemies 0 s.player s.kills_this_stage).2.2.2 ≤ s.stage_goal
    rw [hk]
    exact hP hA

/-! ### Wrappers for the combat and strike steps -/

theorem Game.step_combat_stage (env : Env) (ds : List KillDraw) (s : Game) :
    (Game.step_combat env ds s).1.stage = s.stage :=
  Game.combat_fold_stage env s.enemies s ds

theorem Game.step_combat_clamp (env : Env) (ds : List KillDraw) (s : Game)
    (hP : s.awaiting_buoy = true → s.kills_this_stage ≤ s.stage_goal) :
    (Game.step_combat env ds s).1.awaiting_buoy = true →
      (Game.step_combat env ds s).1.kills_this_stage
        ≤ (Game.step_combat env ds s).1.stage_goal :=
  Game.combat_fold_clamp env s.enemies s ds hP

theorem Game.step_combat_energy (env : Env) (ds : List KillDraw) (s : Game)
    (h0 : 0 ≤ s.pulse_energy) (h1 : s.pulse_energy ≤ PULSE_ENERGY_MAX) :
    0 ≤ (Game.step_combat env ds s).1.pulse_energy
      ∧ (Game.step_combat env ds s).1.pulse_energy ≤ PULSE_ENERGY_MAX :=
  Game.combat_fold_energy env s.enemies s ds h0 h1

theorem Game.step_combat_catches_length (env : Env) (ds : List KillDraw) (s : Game)
    (h : s.special_catches.length ≤ 5) :
    (Game.step_combat env ds s).1.special_catches.length ≤ 5 :=
  Game.combat_fold_catches_length env s.enemies s ds h

theorem Game.step_combat_health_cases (env : Env) (ds : List KillDraw) (s : Game) :
    (Game.step_combat env ds s).1.player.health = s.player.health
    ∨ ((Game.step_combat env ds s).1.player.health = s.player.health - 1
        ∧ s.player.iframes ≤ 0) :=
  Game.combat_fold_health_cases env s.enemies s ds

theorem Game.step_strike_health (env : Env) (ds : List KillDraw) (s : Game) :
    (Game.step_strike env ds s).player.health = s.player.health := by
  simp only [Game.step_strike]
  split
  · exact (Game.trigger_health env s ds).1
  · rfl

theorem Game.step_strike_state (env : Env) (ds : List KillDraw) (s : Game) :
    (Game.step_strike env ds s).state = s.state := by
  simp only [Game.step_strike]
  split
  · exact Game.trigger_state env s ds
  · rfl

theorem Game.step_strike_stage (env : Env) (ds : List KillDraw) (s : Game) :
    (Game.step_strike env ds s).stage = s.stage := by
  simp only [Game.step_strike]
  split
  · exact Game.trigger_stage env s ds
  · rfl

theorem Game.step_strike_energy (env : Env) (ds : List KillDraw) (s : Game) :
    (Game.step_strike env ds s).pulse_energy = s.pulse_energy := by
  simp only [Game.step_strike]
  split
  · exact Game.trigger_energy env s ds
  · rfl

theorem Game.step_strike_catches (env : Env) (ds : List KillDraw) (s : Game) :
    (Game.step_strike env ds s).special_catches = s.special_catches := by
  simp only [Game.step_strike]
  split
  · exact Game.trigger_catches env s ds
  · rfl

theorem Game.step_strike_clamp (env : Env) (ds : List KillDraw) (s : Game)
    (hP : s.awaiting_buoy = true → s.kills_this_stage ≤ s.stage_goal) :
    (Game.step_strike env ds s).awaiting_buoy = true →
      (Game.step_strike env ds s).kills_this_stage ≤ (Game.step_strike env ds s).stage_goal := by
  simp only [Game.step_strike]
  split
  · exact Game.trigger_clamp env s ds hP
  · exact hP

/-! ### Wrappers for the buoy-collection step -/

theorem Game.step_buoy_player (s : Game) : (Game.step_buoy s).player = s.player := by
  rcases Game.step_buoy_cases s with h | h <;> rw [h]
  exact Game.advance_player s

theorem Game.step_buoy_state (s : Game) : (Game.step_buoy s).state = s.state := by
  rcases Game.step_buoy_cases s with h | h <;> rw [h]
  exact Game.advance_state s

theorem Game.step_buoy_energy (s : Game) :
    (Game.step_buoy s).pulse_energy = s.pulse_energy := by
  rcases Game.step_buoy_cases s with h | h <;> rw [h]
  exact Game.advance_energy s

theorem Game.step_buoy_catches (s : Game) :
    (Game.step_buoy s).special_catches = s.special_catches := by
  rcases Game.step_buoy_cases s with h | h <;> rw [h]
  exact Game.advance_catches s

theorem Game.step_buoy_clamp (s : Game)
    (hP : s.awaiting_buoy = true → s.kills_this_stage ≤ s.stage_goal) :
    (Game.step_buoy s).awaiting_buoy = true →
      (Game.step_buoy s).kills_this_stage ≤ (Game.step_buoy s).stage_goal := by
  rcases Game.step_buoy_cases s with h | h <;> rw [h]
  · exact hP
  · rcases Game.advance_cases s with ⟨_, he⟩ | ⟨_, _, _, _, ha⟩
    · rw [he]; exact hP
    · intro hA
      rw [ha] at hA
      simp at hA

/-- The stage number after the buoy step: unchanged, or advanced by exactly
one from a set awaiting-buoy gate. -/
theorem Game.step_buoy_stage_cases (s : Game) :
    (Game.step_buoy s).stage = s.stage
    ∨ (s.awaiting_buoy = true ∧ (Game.step_buoy s).stage = s.stage + 1) := by
  rcases Game.step_buoy_cases s with h | h <;> rw [h]
  · exact Or.inl rfl
  · rcases Game.advance_cases s with ⟨_, he⟩ | ⟨hA, h1, _, _, _⟩
    · rw [he]; exact Or.inl rfl
    · exact Or.inr ⟨hA, h1⟩

/-! ### Whole-tick invariant lemmas -/

/-- Pulse energy stays within `[0, PULSE_ENERGY_MAX]` across one gameplay
tick. -/
theorem Game.run_tick_energy (env : Env) (d : TickDraws) (dt : ℚ) (s : Game)
    (hdt : 0 ≤ dt) (h0 : 0 ≤ s.pulse_energy) :
    0 ≤ (Game.run_tick env d dt s).pulse_energy
      ∧ (Game.run_tick env d dt s).pulse_energy ≤ PULSE_ENERGY_MAX := by
  simp only [Game.run_tick]
  rw [Game.step_finish_energy, Game.step_decay_energy, Game.step_strike_energy,
    Game.step_catches_energy, Game.step_buoy_energy, Game.step_particles_energy,
    Game.step_purge_energy]
  refine Game.step_combat_energy env d.kills _ ?_ ?_ <;>
    rw [Game.step_motion_energy, Game.step_spawn_energy, Game.step_player_energy,
      Game.step_mesh_energy]
  · rcases Game.step_pulse_intent_energy_cases dt (Game.step_fire (Game.step_timers env dt s))
      with h | h
    · rw [h]
      refine le_min (by norm_num [PULSE_ENERGY_MAX]) ?_
      rw [Game.step_fire_energy, Game.step_timers_energy]
      nlinarith
    · simp [h]
  · rcases Game.step_pulse_intent_energy_cases dt (Game.step_fire (Game.step_timers env dt s))
      with h | h
    · rw [h]
      exact min_le_left _ _
    · rw [h]
      norm_num [PULSE_ENERGY_MAX]

/-- The awaiting-buoy clamp is preserved by one gameplay tick. -/
theorem Game.run_tick_clamp (env : Env) (d : TickDraws) (dt : ℚ) (s : Game)
    (hP : s.awaiting_buoy = true → s.kills_this_stage ≤ s.stage_goal) :
    (Game.run_tick env d dt s).awaiting_buoy = true →
      (Game.run_tick env d dt s).kills_this_stage ≤ (Game.run_tick env d dt s).stage_goal := by
  simp only [Game.run_tick]
  rw [Game.step_finish_awaiting, Game.step_finish_kills, Game.step_finish_goal,
    Game.step_decay_awaiting, Game.step_decay_kills, Game.step_decay_goal]
  apply Game.step_strike_clamp
  rw [Game.step_catches_awaiting, Game.step_catches_kills, Game.step_catches_goal]
  apply Game.step_buoy_clamp
  rw [Game.step_particles_awaiting, Game.step_particles_kills, Game.step_particles_goal,
    Game.step_purge_awaiting, Game.step_purge_kills, Game.step_purge_goal]
  apply Game.step_combat_clamp
  rw [Game.step_motion_awaiting, Game.step_motion_kills, Game.step_motion_goal,
    Game.step_spawn_awaiting, Game.step_spawn_kills, Game.step_spawn_goal,
    Game.step_player_awaiting, Game.step_player_kills, Game.step_player_goal,
    Game.step_mesh_awaiting, Game.step_mesh_kills, Game.step_mesh_goal,
    Game.step_pulse_intent_awaiting, Game.step_pulse_intent_kills, Game.step_pulse_intent_goal,
    Game.step_fire_awaiting, Game.step_fire_kills, Game.step_fire_goal,
    Game.step_timers_awaiting, Game.step_timers_kills, Game.step_timers_goal]
  exact hP

/-- One gameplay tick leaves the stage number unchanged or advances it by
exactly one (only the buoy-collection step can advance it). -/
theorem Game.run_tick_stage_cases (env : Env) (d : TickDraws) (dt : ℚ) (s : Game) :
    (Game.run_tick env d dt s).stage = s.stage
    ∨ (Game.run_tick env d dt s).stage = s.stage + 1 := by
  simp only [Game.run_tick]
  rw [Game.step_finish_stage, Game.step_decay_stage, Game.step_strike_stage,
    Game.step_catches_stage]
  rcases Game.step_buoy_stage_cases (Game.step_particles dt (Game.step_purge
      (Game.step_combat env d.kills (Game.step_motion env dt (Game.step_spawn env d.wave dt
        (Game.step_player env dt (Game.step_mesh env (Game.step_pulse_intent dt
          (Game.step_fire (Game.step_timers env dt s)))))))).1)) with h | ⟨_, h⟩ <;>
    rw [h] <;>
    rw [Game.step_particles_stage, Game.step_purge_stage, Game.step_combat_stage,
      Game.step_motion_stage, Game.step_spawn_stage, Game.step_player_stage,
      Game.step_mesh_stage, Game.step_pulse_intent_stage, Game.step_fire_stage,
      Game.step_timers_stage]
  · exact Or.inl rfl
  · exact Or.inr rfl

/-- The special-catch collection stays within its cap across one gameplay
tick. -/
theorem Game.run_tick_catches (env : Env) (d : TickDraws) (dt : ℚ) (s : Game)
    (h : s.special_catches.length ≤ 5) :
    (Game.run_tick env d dt s).special_catches.length ≤ 5 := by
  simp only [Game.run_tick]
  rw [Game.step_finish_catches, Game.step_decay_catches, Game.step_strike_catches]
  apply Game.step_catches_length
  rw [Game.step_buoy_catches, Game.step_particles_catches]
  refine le_trans (Game.step_purge_catches_length _) ?_
  apply Game.step_combat_catches_length
  rw [Game.step_motion_catches_length, Game.step_spawn_catches, Game.step_player_catches,
    Game.step_mesh_catches, Game.step_pulse_intent_catches, Game.step_fire_catches,
    Game.step_timers_catches]
  exact h

/-- One gameplay tick costs the player at most one heart, and only when the
iframes window had expired. -/
theorem Game.run_tick_health_cases (env : Env) (d : TickDraws) (dt : ℚ) (s : Game) :
    (Game.run_tick env d dt s).player.health = s.player.health
    ∨ (Game.run_tick env d dt s).player.health = s.player.health - 1 := by
  simp only [Game.run_tick]
  rw [Game.step_finish_health, Game.step_decay_health, Game.step_strike_health,
    Game.step_catches_player, Game.step_buoy_player, Game.step_particles_player,
    Game.step_purge_player]
  rcases Game.step_combat_health_cases env d.kills (Game.step_motion env dt
      (Game.step_spawn env d.wave dt (Game.step_player env dt (Game.step_mesh env
        (Game.step_pulse_intent dt (Game.step_fire (Game.step_timers env dt s)))))))
    with hc | ⟨hc, _⟩ <;>
    rw [hc] <;>
    rw [Game.step_motion_player, Game.step_spawn_player, Game.step_player_health,
      Game.step_mesh_player, Game.step_pulse_intent_player, Game.step_fire_player,
      Game.step_timers_player]
  · exact Or.inl rfl
  · exact Or.inr rfl

/-- Zero health at the end of a gameplay tick forces the game-over state. -/
theorem Game.run_tick_game_over (env : Env) (d : TickDraws) (dt : ℚ) (s : Game)
    (h : (Game.run_tick env d dt s).player.health ≤ 0) :
    (Game.run_tick env d dt s).state = GState.game_over := by
  have := Game.step_finish_game_over (Game.step_decay (Game.step_strike env
    (Game.step_combat env d.kills (Game.step_motion env dt (Game.step_spawn env d.wave dt
      (Game.step_player env dt (Game.step_mesh env (Game.step_pulse_intent dt
        (Game.step_fire (Game.step_timers env dt s)))))))).2
    (Game.step_catches (Game.step_buoy (Game.step_particles dt (Game.step_purge
      (Game.step_combat env d.kills (Game.step_motion env dt (Game.step_spawn env d.wave dt
        (Game.step_player env dt (Game.step_mesh env (Game.step_pulse_intent dt
          (Game.step_fire (Game.step_timers env dt s)))))))).1))))))
  simp only [Game.run_tick]
  exact this (by simpa only [Game.run_tick] using h)

/-! ### Lemmas about the full `Game.update` (including the state gating) -/

theorem Game.update_energy (env : Env) (d : TickDraws) (dt : ℚ) (s : Game)
    (hdt : 0 ≤ dt) (h0 : 0 ≤ s.pulse_energy) (h1 : s.pulse_energy ≤ PULSE_ENERGY_MAX) :
    0 ≤ (Game.update env d dt s).pulse_energy
      ∧ (Game.update env d dt s).pulse_energy ≤ PULSE_ENERGY_MAX := by
  simp only [Game.update]
  split_ifs <;> first
    | exact ⟨h0, h1⟩
    | exact Game.run_tick_energy env d dt _ hdt h0

theorem Game.update_clamp (env : Env) (d : TickDraws) (dt : ℚ) (s : Game)
    (hP : s.awaiting_buoy = true → s.kills_this_stage ≤ s.stage_goal) :
    (Game.update env d dt s).awaiting_buoy = true →
      (Game.update env d dt s).kills_this_stage ≤ (Game.update env d dt s).stage_goal := by
  simp only [Game.update]
  split_ifs <;> first
    | exact hP
    | exact Game.run_tick_clamp env d dt _ hP

theorem Game.update_stage_cases (env : Env) (d : TickDraws) (dt : ℚ) (s : Game) :
    (Game.update env d dt s).stage = s.stage
    ∨ (Game.update env d dt s).stage = s.stage + 1 := by
  simp only [Game.update]
  split_ifs <;> first
    | exact Or.inl rfl
    | exact Game.run_tick_stage_cases env d dt _

theorem Game.update_catches (env : Env) (d : TickDraws) (dt : ℚ) (s : Game)
    (h : s.special_catches.length ≤ 5) :
    (Game.update env d dt s).special_catches.length ≤ 5 := by
  simp only [Game.update]
  split_ifs <;> first
    | exact h
    | exact Game.run_tick_catches env d dt _ h

theorem Game.update_health_cases (env : Env) (d : TickDraws) (dt : ℚ) (s : Game) :
    (Game.update env d dt s).player.health = s.player.health
    ∨ (Game.update env d dt s).player.health = s.player.health - 1 := by
  simp only [Game.update]
  split_ifs <;> first
    | exact Or.inl rfl
    | exact Game.run_tick_health_cases env d dt _

/-- The gating of main.py:669-688 in one lemma: a tick is either an early
return that leaves every simulation field untouched (possibly moving from
`intro` to `gameplay`), or it runs `run_tick` on a state that differs from
the input only in presentation fields (state timer, banner, state tag). -/
theorem Game.update_shape (env : Env) (d : TickDraws) (dt : ℚ) (s : Game) :
    ((Game.update env d dt s).player = s.player
      ∧ (Game.update env d dt s).pulse_energy = s.pulse_energy
      ∧ (Game.update env d dt s).stage = s.stage
      ∧ (Game.update env d dt s).kills_this_stage = s.kills_this_stage
      ∧ (Game.update env d dt s).stage_goal = s.stage_goal
      ∧ (Game.update env d dt s).awaiting_buoy = s.awaiting_buoy
      ∧ (Game.update env d dt s).special_catches = s.special_catches
      ∧ ((Game.update env d dt s).state = s.state
          ∨ (s.state = GState.intro ∧ (Game.update env d dt s).state = GState.gameplay)))
    ∨ (∃ s3 : Game, Game.update env d dt s = Game.run_tick env d dt s3
        ∧ s3.player = s.player ∧ s3.pulse_energy = s.pulse_energy
        ∧ s3.stage = s.stage ∧ s3.kills_this_stage = s.kills_this_stage
        ∧ s3.stage_goal = s.stage_goal ∧ s3.awaiting_buoy = s.awaiting_buoy
        ∧ s3.special_catches = s.special_catches
        ∧ (s.state = GState.gameplay ∨ s.state = GState.intro)) := by
  simp only [Game.update]
  split_ifs <;> first
    | exact Or.inl ⟨rfl, rfl, rfl, rfl, rfl, rfl, rfl, by simp_all⟩
    | exact Or.inr ⟨_, rfl, rfl, rfl, rfl, rfl, rfl, rfl, rfl, by simp_all⟩

theorem Game.update_health_lower (env : Env) (d : TickDraws) (dt : ℚ) (s : Game)
    (h0 : 0 ≤ s.player.health)
    (hinv : s.player.health ≤ 0 → s.state = GState.game_over) :
    0 ≤ (Game.update env d dt s).player.health := by
  rcases Game.update_shape env d dt s with ⟨hp, _⟩ |
    ⟨s3, heq, hp3, _, _, _, _, _, _, hss⟩
  · rw [hp]
    exact h0
  · rw [heq]
    have hpos : 0 < s.player.health := by
      by_contra hz
      have hgo := hinv (by omega)
      rcases hss with h | h <;> rw [h] at hgo <;> simp at hgo
    rcases Game.run_tick_health_cases env d dt s3 with hc | hc <;> rw [hc, hp3] <;> omega

/-- One full tick preserves the game-over guarantee: if health is exhausted
after the tick, the top-level state is `game_over`. -/
theorem Game.update_game_over (env : Env) (d : TickDraws) (dt : ℚ) (s : Game)
    (hinv : s.player.health ≤ 0 → s.state = GState.game_over) :
    (Game.update env d dt s).player.health ≤ 0 →
      (Game.update env d dt s).state = GState.game_over := by
  intro hh
  rcases Game.update_shape env d dt s with ⟨hp, _, _, _, _, _, _, hstate⟩ |
    ⟨s3, heq, hp3, _, _, _, _, _, _, hss⟩
  · rw [hp] at hh
    have hgo := hinv hh
    rcases hstate with h | ⟨hi, _⟩
    · rw [h]
      exact hgo
    · exfalso
      rw [hi] at hgo
      simp at hgo
  · rw [heq] at hh ⊢
    exact Game.run_tick_game_over env d dt s3 hh

/-! ### C2, C3, C6, C10 -/

/-- The closed form of main.py:699-705 when the regenerated energy is still
below the maximum: energy takes exactly the regenerated value and the pulse
intent is merely dropped. -/
theorem Game.step_pulse_intent_low (dt : ℚ) (s : Game)
    (h : min PULSE_ENERGY_MAX (s.pulse_energy + dt * 8) < PULSE_ENERGY_MAX) :
    Game.step_pulse_intent dt s =
      { s with pulse_energy := min PULSE_ENERGY_MAX (s.pulse_energy + dt * 8),
               pending_pulse := false } := by
  simp only [Game.step_pulse_intent]
  rw [if_neg (fun hand => absurd hand.2 (not_le.mpr h))]

/-- The closed form of main.py:699-705 when the intent fires at full energy:
one pulse appears at the player's position and the energy drops to zero. -/
theorem Game.step_pulse_intent_full (dt : ℚ) (s : Game) (hp : s.pending_pulse = true)
    (hge : min PULSE_ENERGY_MAX (s.pulse_energy + dt * 8) ≥ PULSE_ENERGY_MAX) :
    Game.step_pulse_intent dt s =
      { s with pulses := s.pulses ++ [{ x := s.player.x, y := s.player.y, r := 0, alive := true }],
               pulse_energy := 0, pending_pulse := false } := by
  simp only [Game.step_pulse_intent]
  rw [if_pos ⟨hp, hge⟩]

/-- C6 — the pulse-energy rules of main.py:699-705 and the resulting bounds
invariant.  A pulse intent arriving while the post-regeneration energy is
below `PULSE_ENERGY_MAX` creates no pulse and leaves the energy exactly at
the regenerated value (the intent itself is simply dropped: the tick result
does not depend on the pending-pulse flag at all); at full energy the intent
creates exactly one pulse at the player's position and zeroes the energy;
and across any full tick with `dt ≥ 0` the energy stays within
`[0, PULSE_ENERGY_MAX]`. -/
theorem c6_pulse_energy_rules :
    (∀ (dt : ℚ) (s : Game),
      min PULSE_ENERGY_MAX (s.pulse_energy + dt * 8) < PULSE_ENERGY_MAX →
      (Game.step_pulse_intent dt s).pulses = s.pulses
      ∧ (Game.step_pulse_intent dt s).pulse_energy
          = min PULSE_ENERGY_MAX (s.pulse_energy + dt * 8)
      ∧ Game.step_pulse_intent dt { s with pending_pulse := true }
          = Game.step_pulse_intent dt { s with pending_pulse := false })
    ∧ (∀ (dt : ℚ) (s : Game), s.pending_pulse = true →
      min PULSE_ENERGY_MAX (s.pulse_energy + dt * 8) ≥ PULSE_ENERGY_MAX →
      (Game.step_pulse_intent dt s).pulses
          = s.pulses ++ [{ x := s.player.x, y := s.player.y, r := 0, alive := true }]
      ∧ (Game.step_pulse_intent dt s).pulse_energy = 0)
    ∧ (∀ (env : Env) (d : TickDraws) (dt : ℚ) (s : Game),
      0 ≤ dt → 0 ≤ s.pulse_energy → s.pulse_energy ≤ PULSE_ENERGY_MAX →
      0 ≤ (Game.update env d dt s).pulse_energy
        ∧ (Game.update env d dt s).pulse_energy ≤ PULSE_ENERGY_MAX) := by
  refine ⟨?_, ?_, ?_⟩
  · intro dt s h
    refine ⟨?_, ?_, ?_⟩
    · rw [Game.step_pulse_intent_low dt s h]
    · rw [Game.step_pulse_intent_low dt s h]
    · rw [Game.step_pulse_intent_low dt { s with pending_pulse := true } h,
        Game.step_pulse_intent_low dt { s with pending_pulse := false } h]
  · intro dt s hp hge
    refine ⟨?_, ?_⟩ <;> rw [Game.step_pulse_intent_full dt s hp hge]
  · intro env d dt s hdt h0 h1
    exact Game.update_energy env d dt s hdt h0 h1

/-- C10 — at most `SPECIAL_MAX_STOCK = 5` uncollected special catches ever
exist: the spawn roll is skipped entirely once the collection holds five
(main.py:861-863), and the bound is an invariant of every tick. -/
theorem c10_special_catch_cap :
    (∀ (dk : KillDraw) (x y : ℚ) (s : Game),
      SPECIAL_MAX_STOCK ≤ (s.special_catches.length : ℤ) →
      Game.maybe_spawn_special dk x y s = s)
    ∧ (∀ (env : Env) (d : TickDraws) (dt : ℚ) (s : Game),
      s.special_catches.length ≤ 5 →
      (Game.update env d dt s).special_catches.length ≤ 5) := by
  constructor
  · intro dk x y s h
    simp only [Game.maybe_spawn_special]
    rw [if_pos h]
  · intro env d dt s h
    exact Game.update_catches env d dt s h

/-- C2 — the stage-progression state machine: the quota for stage `N` is
`8 + 4·N`; `_advance_stage` is gated on the awaiting-buoy flag and, when it
fires, increments the stage by one, resets the kill counter to zero and
installs the next quota; reaching the kill quota (`_check_stage_progression`)
never changes the stage; the buoy-collection step is the only stage mutator
(every tick changes the stage by zero or one); and the clamp "kills never
exceed the quota while awaiting the buoy" is an invariant of every tick. -/
theorem c2_stage_progression :
    (∀ n : ℤ, goal_for_stage n = 8 + 4 * n)
    ∧ (∀ s : Game, s.awaiting_buoy = false → Game.advance_stage s = s)
    ∧ (∀ s : Game, s.awaiting_buoy = true →
        (Game.advance_stage s).stage = s.stage + 1
        ∧ (Game.advance_stage s).kills_this_stage = 0
        ∧ (Game.advance_stage s).stage_goal = goal_for_stage (s.stage + 1)
        ∧ (Game.advance_stage s).awaiting_buoy = false)
    ∧ (∀ (env : Env) (dk : KillDraw) (s : Game),
        (Game.check_stage_progression env dk s).stage = s.stage)
    ∧ (∀ s : Game, Game.step_buoy s = s ∨ Game.step_buoy s = Game.advance_stage s)
    ∧ (∀ (env : Env) (d : TickDraws) (dt : ℚ) (s : Game),
        (Game.update env d dt s).stage = s.stage
        ∨ (Game.update env d dt s).stage = s.stage + 1)
    ∧ (∀ (env : Env) (d : TickDraws) (dt : ℚ) (s : Game),
        (s.awaiting_buoy = true → s.kills_this_stage ≤ s.stage_goal) →
        ((Game.update env d dt s).awaiting_buoy = true →
          (Game.update env d dt s).kills_this_stage
            ≤ (Game.update env d dt s).stage_goal)) := by
  refine ⟨?_, ?_, ?_, ?_, ?_, ?_, ?_⟩
  · intro n
    simp only [goal_for_stage]
    ring
  · intro s h
    simp only [Game.advance_stage]
    rw [if_pos h]
  · intro s h
    have hne : ¬ s.awaiting_buoy = false := by simp [h]
    refine ⟨?_, ?_, ?_, ?_⟩ <;> simp only [Game.advance_stage] <;> rw [if_neg hne]
  · intro env dk s
    exact Game.check_stage env dk s
  · intro s
    exact Game.step_buoy_cases s
  · intro env d dt s
    exact Game.update_stage_cases env d dt s
  · intro env d dt s hP
    exact Game.update_clamp env d dt s hP

/-- C3 — health stays in `[0, 3]` (3 is the starting value); a damaging
contact with expired iframes costs exactly one heart, restarts the iframes
window and resets the combo; contact during iframes costs nothing; one tick
can cost at most one heart; and a tick that exhausts health puts the game in
`game_over` within that same tick (given the boundary invariant that an
already-exhausted player is already in `game_over`). -/
theorem c3_health_invariants :
    (∀ env : Env, (Player.init env).health = 3)
    ∧ (∀ p : Player, p.iframes ≤ 0 →
        (Player.damage p).health = p.health - 1 ∧ (Player.damage p).iframes = 1
          ∧ (Player.damage p).combo = 0)
    ∧ (∀ p : Player, 0 < p.iframes → Player.damage p = p)
    ∧ (∀ (env : Env) (d : TickDraws) (dt : ℚ) (s : Game),
        0 ≤ s.player.health → s.player.health ≤ 3 →
        (s.player.health ≤ 0 → s.state = GState.game_over) →
        0 ≤ (Game.update env d dt s).player.health
        ∧ (Game.update env d dt s).player.health ≤ 3
        ∧ s.player.health - 1 ≤ (Game.update env d dt s).player.health
        ∧ ((Game.update env d dt s).player.health ≤ 0 →
            (Game.update env d dt s).state = GState.game_over)) := by
  refine ⟨fun _ => rfl, Player.damage_hit, Player.damage_noop, ?_⟩
  intro env d dt s h0 h3 hinv
  refine ⟨Game.update_health_lower env d dt s h0 hinv, ?_, ?_,
    Game.update_game_over env d dt s hinv⟩
  · rcases Game.update_health_cases env d dt s with h | h <;> rw [h] <;> omega
  · rcases Game.update_health_cases env d dt s with h | h <;> rw [h] <;> omega

/-! ### Lemmas for the dt = 0 analysis (C5) -/

theorem list_map_self {α : Type} (f : α → α) :
    ∀ l : List α, (∀ x ∈ l, f x = x) → l.map f = l := by
  intro l h
  induction l with
  | nil => rfl
  | cons a rest ih =>
    simp only [List.map_cons]
    rw [h a (by simp), ih (fun x hx => h x (by simp [hx]))]

theorem list_filter_self {α : Type} (p : α → Bool) :
    ∀ l : List α, (∀ x ∈ l, p x = true) → l.filter p = l := by
  intro l h
  induction l with
  | nil => rfl
  | cons a rest ih =>
    rw [List.filter_cons, if_pos (h a (by simp)), ih (fun x hx => h x (by simp [hx]))]

theorem chargerBoost_x (e : Enemy) : (chargerBoost e).x = e.x := by
  unfold chargerBoost; split <;> rfl

theorem chargerBoost_y (e : Enemy) : (chargerBoost e).y = e.y := by
  unfold chargerBoost; split <;> rfl

theorem chargerBoost_alive (e : Enemy) : (chargerBoost e).alive = e.alive := by
  unfold chargerBoost; split <;> rfl

theorem chargerBoost_hit_by_pulse (e : Enemy) (p : Pulse) :
    Enemy.hit_by_pulse (chargerBoost e) p = Enemy.hit_by_pulse e p := by
  simp only [Enemy.hit_by_pulse, chargerBoost_x, chargerBoost_y]

/-- On a dt = 0 tick an enemy keeps its position, liveness and phase and only
a charger compounds its speed (main.py:205-227 with `dt = 0`). -/
theorem Enemy.update_zero_boost (env : Env) (phase t : ℚ) (e : Enemy)
    (hx40 : ¬(e.x < -40))
    (hy : e.y = Enemy.updated_y env e.variant e.t e.x e.warning e.wave_offset phase t) :
    Enemy.update env 0 phase t e = chargerBoost e := by
  have h1 : e.t + 0 = e.t := add_zero _
  have h2 : e.x - e.speed * 60 * 0 = e.x := by ring
  simp only [Enemy.update, chargerBoost]
  rw [h1, h2, if_neg hx40, ← hy]
  split <;> ext <;> simp <;> split <;> simp

/-- A pulse inside its radius bound is unchanged by a dt = 0 update. -/
theorem Pulse.update_zero_id (p : Pulse) (hr : ¬(p.r > PULSE_RADIUS_MAX)) :
    Pulse.update 0 p = p := by
  have h1 : p.r + 320 * 0 = p.r := by ring
  simp only [Pulse.update]
  rw [h1, if_neg hr]

/-- A harpoon inside the horizontal bounds is unchanged by a dt = 0 update
(the bob is scaled by `dt`). -/
theorem Harpoon.update_zero_fix (env : Env) (h : Harpoon)
    (hb : ¬(h.x < -60 ∨ h.x > WIDTH + 60)) : Harpoon.update env 0 h = h := by
  have h1 : h.x + h.vx * 0 = h.x := by ring
  simp only [Harpoon.update]
  rw [h1, if_neg hb]
  ext <;> simp

/-- Particles are unchanged by a dt = 0 update. -/
theorem Particle.update_zero_noop (p : Particle) : Particle.update 0 p = p := by
  simp only [Particle.update]
  ext <;> simp

/-- A buoy whose position agrees with its drift formula is unchanged by a
dt = 0 update. -/
theorem Buoy.update_zero_steady (env : Env) (wphase t : ℚ) (b : Buoy)
    (hx : b.x = b.base_x + env.sin (b.phase * 0.7) * 22)
    (hy : b.y = generate_wave_y env b.x wphase t
        + env.sin ((t + b.phase) * 1.8) * 6 - 30 + env.sin (b.phase * 1.5) * 5) :
    Buoy.update env 0 wphase t b = b := by
  have h1 : b.phase + 0 * 1.6 = b.phase := by ring
  have h2 : b.base_x + (if b.base_x > b.target_x then (-1 : ℚ) else 1) * BUOY_DRIFT_SPEED * 0
      = b.base_x := by ring
  have h3 : lerp b.base_x b.target_x (0.4 * 0) = b.base_x := by
    simp [lerp]
  simp only [Buoy.update]
  rw [h1, h2, h3, ← hx, ← hy]

/-- A special catch whose height agrees with its bob formula is unchanged by
a dt = 0 update. -/
theorem SpecialCatch.update_zero_keep (env : Env) (wphase t target_x : ℚ) (c : SpecialCatch)
    (hy : c.y = generate_wave_y env c.x wphase t - 26 + env.sin c.phase * 8 + c.float_offset) :
    SpecialCatch.update env 0 wphase t target_x c = c := by
  have h1 : c.phase + 0 * 2.4 = c.phase := by ring
  have h2 : c.x + (target_x - c.x) * 0 * 2.0 = c.x := by ring
  simp only [SpecialCatch.update]
  rw [h1, h2, ← hy]

/-- Projections of `Player.update` at dt = 0 that the steady-frame chain
needs (the spring state may move; everything else is fixed). -/
theorem Player.update_zero_lct (env : Env) (phase t : ℚ) (p : Player) :
    (Player.update env 0 phase t none p).last_combo_time = p.last_combo_time := by
  simp [Player.update]

theorem Player.update_zero_score (env : Env) (phase t : ℚ) (p : Player) :
    (Player.update env 0 phase t none p).score = p.score := by
  simp [Player.update]

theorem Player.update_zero_health (env : Env) (phase t : ℚ) (p : Player) :
    (Player.update env 0 phase t none p).health = p.health := rfl

theorem Player.update_zero_combo (env : Env) (phase t : ℚ) (p : Player) :
    (Player.update env 0 phase t none p).combo = p.combo := rfl

/-- main.py:748-767: with no harpoon in range, the scan reports no hit. -/
theorem harpoon_scan_none (e : Enemy) :
    ∀ hs : List Harpoon,
      (∀ h ∈ hs, ¬((e.x - h.x) * (e.x - h.x) + (e.y - h.y) * (e.y - h.y)
        ≤ (ENEMY_RADIUS + 6) ^ 2)) →
      harpoon_scan e hs = none := by
  intro hs hno
  induction hs with
  | nil => rfl
  | cons h rest ih =>
    simp only [harpoon_scan]
    rw [if_neg (fun hand => hno h (by simp) hand.2),
      ih (fun x hx => hno x (by simp [hx]))]

/-- An enemy in contact with nothing passes through the resolver
unchanged. -/
theorem Game.resolve_steady (env : Env) (e : Enemy) (s : Game) (ds : List KillDraw)
    (halive : e.alive = true)
    (hov : ¬((e.x - s.player.x) * (e.x - s.player.x) + (e.y - s.player.y) * (e.y - s.player.y)
      ≤ (ENEMY_RADIUS + PLAYER_RADIUS) ^ 2))
    (hharp : ∀ h ∈ s.harpoons, ¬((e.x - h.x) * (e.x - h.x) + (e.y - h.y) * (e.y - h.y)
      ≤ (ENEMY_RADIUS + 6) ^ 2))
    (hpul : ∀ pu ∈ s.pulses, ¬(Enemy.hit_by_pulse e pu = true)) :
    Game.resolve_enemy env e s ds = (e, s, ds) := by
  unfold Game.resolve_enemy
  rw [if_neg (by simp [halive]), if_neg hov, harpoon_scan_none e s.harpoons hharp]
  rw [if_neg ?hany]
  case hany =>
    rw [List.any_eq_true]
    rintro ⟨pu, hmem, hhit⟩
    exact hpul pu hmem (by simpa using (Bool.and_elim_right (by simpa using hhit)))

/-- A combat pass over enemies that touch nothing is the identity. -/
theorem Game.combat_fold_steady (env : Env) :
    ∀ (es : List Enemy) (s : Game) (ds : List KillDraw),
      (∀ e ∈ es, e.alive = true
        ∧ ¬((e.x - s.player.x) * (e.x - s.player.x) + (e.y - s.player.y) * (e.y - s.player.y)
            ≤ (ENEMY_RADIUS + PLAYER_RADIUS) ^ 2)
        ∧ (∀ h ∈ s.harpoons, ¬((e.x - h.x) * (e.x - h.x) + (e.y - h.y) * (e.y - h.y)
            ≤ (ENEMY_RADIUS + 6) ^ 2))
        ∧ (∀ pu ∈ s.pulses, ¬(Enemy.hit_by_pulse e pu = true))) →
      Game.combat_fold env es s ds = (es, s, ds) := by
  intro es
  induction es with
  | nil => intro s ds _; rfl
  | cons e rest ih =>
    intro s ds hall
    obtain ⟨h1, h2, h3, h4⟩ := hall e (by simp)
    simp only [Game.combat_fold]
    rw [Game.resolve_steady env e s ds h1 h2 h3 h4,
      ih s ds (fun x hx => hall x (by simp [hx]))]

/-- Catches in contact with nothing are left alone, stock included. -/
theorem collect_catches_steady (px py : ℚ) :
    ∀ (cs : List SpecialCatch) (stock : ℤ),
      (∀ c ∈ cs, c.collected = false
        ∧ ¬((px - c.x) * (px - c.x) + ((py - 8) - c.y) * ((py - 8) - c.y) ≤ 26 ^ 2)) →
      collect_catches px py cs stock = (cs, stock) := by
  intro cs
  induction cs with
  | nil => intro stock _; rfl
  | cons c rest ih =>
    intro stock hall
    obtain ⟨h1, h2⟩ := hall c (by simp)
    have hcb : SpecialCatch.collected_by px py c = (c, false) := by
      simp only [SpecialCatch.collected_by]
      rw [if_neg (by simp [h1]), if_neg h2]
    simp only [collect_catches]
    rw [hcb]
    simp only []
    rw [if_neg (by simp), ih stock (fun x hx => hall x (by simp [hx]))]

theorem list_map_congr {α β : Type} (f g : α → β) :
    ∀ l : List α, (∀ x ∈ l, f x = g x) → l.map f = l.map g := by
  intro l h
  induction l with
  | nil => rfl
  | cons a rest ih =>
    simp only [List.map_cons]
    rw [h a (by simp), ih (fun x hx => h x (by simp [hx]))]

theorem Game.steady_timers (env : Env) (s : Game) (h1 : 0 < env.twoPi)
    (h2 : 0 ≤ s.spawner_phase) (h3 : s.spawner_phase < env.twoPi)
    (h4 : 0 ≤ s.shoot_timer) : Game.step_timers env 0 s = s := by
  simp only [Game.step_timers]
  ext <;> simp [pyMod]
  · right
    constructor
    · positivity
    · exact (div_lt_one h1).mpr h3
  · exact h4

theorem Game.steady_fire (s : Game) (h : s.pending_shot = false) : Game.step_fire s = s := by
  simp only [Game.step_fire]
  rw [if_neg (by simp [h])]
  ext <;> simp [h]

theorem Game.steady_pulse_intent (s : Game) (hpp : s.pending_pulse = false)
    (hen : s.pulse_energy ≤ PULSE_ENERGY_MAX) : Game.step_pulse_intent 0 s = s := by
  simp only [Game.step_pulse_intent]
  rw [if_neg (by simp [hpp])]
  ext <;> simp [hpp, hen]

theorem Game.steady_mesh (env : Env) (s : Game)
    (h : s.wave_mesh = build_wave_mesh env s.phase s.runtime) : Game.step_mesh env s = s := by
  simp only [Game.step_mesh]
  rw [← h]

theorem Game.steady_player (env : Env) (s : Game) (h : s.jump_request = none) :
    Game.step_player env 0 s
      = { s with player := Player.update env 0 s.phase s.runtime none s.player } := by
  simp only [Game.step_player]
  rw [h]

theorem Game.steady_spawn (env : Env) (w : WaveDraws) (s : Game)
    (h : s.spawn_timer < s.spawn_interval) : Game.step_spawn env w 0 s = s := by
  simp only [Game.step_spawn]
  rw [if_neg (by simp; linarith)]
  ext <;> simp

theorem Game.steady_motion (env : Env) (s : Game)
    (hen : ∀ e ∈ s.enemies, ¬(e.x < -40)
      ∧ e.y = Enemy.updated_y env e.variant e.t e.x e.warning e.wave_offset s.phase s.runtime)
    (hpul : ∀ pu ∈ s.pulses, ¬(pu.r > PULSE_RADIUS_MAX))
    (hharp : ∀ h ∈ s.harpoons, ¬(h.x < -60 ∨ h.x > WIDTH + 60))
    (hbuoy : ∀ b : Buoy, s.buoy = some b →
      b.x = b.base_x + env.sin (b.phase * 0.7) * 22
      ∧ b.y = generate_wave_y env b.x s.phase s.runtime
          + env.sin ((s.runtime + b.phase) * 1.8) * 6 - 30 + env.sin (b.phase * 1.5) * 5)
    (hcat : ∀ c ∈ s.special_catches,
      c.y = generate_wave_y env c.x s.phase s.runtime - 26
        + env.sin c.phase * 8 + c.float_offset) :
    Game.step_motion env 0 s = { s with enemies := s.enemies.map chargerBoost } := by
  simp only [Game.step_motion]
  have he : s.enemies.map (Enemy.update env 0 s.phase s.runtime)
      = s.enemies.map chargerBoost :=
    list_map_congr _ _ _ (fun e hx =>
      Enemy.update_zero_boost env s.phase s.runtime e (hen e hx).1 (hen e hx).2)
  have hp : s.pulses.map (Pulse.update 0) = s.pulses :=
    list_map_self _ _ (fun pu hx => Pulse.update_zero_id pu (hpul pu hx))
  have hh : s.harpoons.map (Harpoon.update env 0) = s.harpoons :=
    list_map_self _ _ (fun h hx => Harpoon.update_zero_fix env h (hharp h hx))
  have hb : s.buoy.map (Buoy.update env 0 s.phase s.runtime) = s.buoy := by
    cases hbo : s.buoy with
    | none => rfl
    | some b =>
      simp [Buoy.update_zero_steady env s.phase s.runtime b (hbuoy b hbo).1 (hbuoy b hbo).2]
  have hc : s.special_catches.map
      (SpecialCatch.update env 0 s.phase s.runtime s.player.x) = s.special_catches :=
    list_map_self _ _ (fun c hx =>
      SpecialCatch.update_zero_keep env s.phase s.runtime s.player.x c (hcat c hx))
  rw [he, hp, hh, hb, hc]

theorem Game.steady_combat (env : Env) (ds : List KillDraw) (s : Game)
    (hall : ∀ e ∈ s.enemies, e.alive = true
      ∧ ¬((e.x - s.player.x) * (e.x - s.player.x) + (e.y - s.player.y) * (e.y - s.player.y)
          ≤ (ENEMY_RADIUS + PLAYER_RADIUS) ^ 2)
      ∧ (∀ h ∈ s.harpoons, ¬((e.x - h.x) * (e.x - h.x) + (e.y - h.y) * (e.y - h.y)
          ≤ (ENEMY_RADIUS + 6) ^ 2))
      ∧ (∀ pu ∈ s.pulses, ¬(Enemy.hit_by_pulse e pu = true))) :
    Game.step_combat env ds s = (s, ds) := by
  simp only [Game.step_combat]
  rw [Game.combat_fold_steady env s.enemies s ds hall]

theorem Game.steady_purge (s : Game)
    (hen : ∀ e ∈ s.enemies, e.alive = true)
    (hpul : ∀ pu ∈ s.pulses, pu.alive = true)
    (hharp : ∀ h ∈ s.harpoons, h.alive = true)
    (hcat : ∀ c ∈ s.special_catches, c.collected = false) :
    Game.step_purge s = s := by
  simp only [Game.step_purge]
  rw [list_filter_self (fun e : Enemy => e.alive) s.enemies
      (fun e hx => by simp [hen e hx]),
    list_filter_self (fun pu : Pulse => pu.alive) s.pulses
      (fun pu hx => by simp [hpul pu hx]),
    list_filter_self (fun h : Harpoon => h.alive) s.harpoons
      (fun h hx => by simp [hharp h hx]),
    list_filter_self (fun c : SpecialCatch => !c.collected) s.special_catches
      (fun c hx => by simp [hcat c hx])]

theorem Game.steady_particles (s : Game) (h : ∀ pa ∈ s.particles, pa.life > 0) :
    Game.step_particles 0 s = s := by
  simp only [Game.step_particles]
  rw [list_map_self _ _ (fun pa _ => Particle.update_zero_noop pa),
    list_filter_self _ _ (fun pa hx => by simp [h pa hx])]

theorem Game.steady_buoy (s : Game)
    (h : ∀ b : Buoy, s.buoy = some b →
      Buoy.collected_by b s.player.x s.player.y = false) : Game.step_buoy s = s := by
  unfold Game.step_buoy
  cases hb : s.buoy with
  | none => rfl
  | some b => simp [h b hb]

theorem Game.steady_catches (s : Game)
    (h : ∀ c ∈ s.special_catches, c.collected = false
      ∧ ¬((s.player.x - c.x) * (s.player.x - c.x)
        + ((s.player.y - 8) - c.y) * ((s.player.y - 8) - c.y) ≤ 26 ^ 2)) :
    Game.step_catches s = s := by
  simp only [Game.step_catches]
  rw [collect_catches_steady s.player.x s.player.y s.special_catches s.special_stock h]
  rw [show (s.special_catches, s.special_stock).1 = s.special_catches from rfl]
  rw [list_filter_self _ _ (fun c hc => by simp [(h c hc).1])]

theorem Game.steady_strike (env : Env) (ds : List KillDraw) (s : Game)
    (h : s.pending_special = false) : Game.step_strike env ds s = s := by
  simp only [Game.step_strike]
  rw [if_neg (by simp [h])]
  ext <;> simp [h]

theorem Game.steady_decay (s : Game)
    (h : ¬(s.player.last_combo_time > 4 ∧ s.player.combo > 0)) : Game.step_decay s = s := by
  simp only [Game.step_decay]
  rw [show (4.0 : ℚ) = 4 from by norm_num, if_neg h]

theorem Game.steady_finish (s : Game) (hpos : 0 < s.player.health)
    (hsc : pyInt s.player.score ≤ s.high_score) : Game.step_finish s = s := by
  simp only [Game.step_finish]
  rw [if_neg (fun hand => absurd hand.1 (not_le.mpr hpos))]
  ext <;> simp
  exact hsc

/-- An unpaused gameplay tick is exactly `run_tick` when `dt = 0` (the state
timer and banner bookkeeping of main.py:670-688 are no-ops then). -/
theorem Game.update_zero_gameplay (env : Env) (d : TickDraws) (s : Game)
    (hg : s.state = GState.gameplay) (hp : s.paused = false) :
    Game.update env d 0 s = Game.run_tick env d 0 s := by
  simp only [Game.update]
  split_ifs <;>
    first
      | (exfalso; simp_all; done)
      | (congr 1; ext <;> simp_all <;> linarith)

/-- The spring-damper residual of a dt = 0 player update: only `y`, `vy` (by
the spring/damp/snap rule of main.py:316-324) and the re-pinned `x`/`facing`
are written, and under the anchored-player invariants the latter two do not
change. -/
theorem Player.update_zero_spec (env : Env) (phase t : ℚ) (p : Player)
    (hx : p.x = p.anchor_x) (hf : p.facing = 1) :
    Player.update env 0 phase t none p
      = (if |generate_wave_y env p.anchor_x phase t - 22 - p.y| < 0.4
            ∧ |(p.vy + (generate_wave_y env p.anchor_x phase t - 22 - p.y) * 0.12) * 0.88| < 0.15
         then { p with y := generate_wave_y env p.anchor_x phase t - 22, vy := 0 }
         else { p with vy := (p.vy + (generate_wave_y env p.anchor_x phase t - 22 - p.y) * 0.12) * 0.88 }) := by
  simp only [Player.update]
  split <;> split <;> ext <;> simp [hx, hf] <;> first
    | (split <;> simp)
    | ring
    | simp_all

/-- Chaining the per-step steady lemmas through `run_tick`: on a steady frame
a `dt = 0` gameplay tick reduces to the spring-damper player update plus the
charger self-acceleration, and nothing else. -/
theorem Game.run_tick_steady (env : Env) (d : TickDraws) (s : Game)
    (hs : SteadyFrame env s) : Game.run_tick env d 0 s = steadyPost env s := by
  simp only [SteadyFrame] at hs
  obtain ⟨htp, hg, hp, hshot, hpulint, hspecint, hjr, hsp0, hsp1, hst, henr,
    hspawn, hpx, hpf, hhp, hlct, hsc, hmesh, hbuoy, henem, hharp, hpulse,
    hpart, hcat⟩ := hs
  have e1 : Game.step_timers env 0 s = s := Game.steady_timers env s htp hsp0 hsp1 hst
  have e2 : Game.step_fire s = s := Game.steady_fire s hshot
  have e3 : Game.step_pulse_intent 0 s = s := Game.steady_pulse_intent s hpulint henr
  have e4 : Game.step_mesh env s = s := Game.steady_mesh env s hmesh
  have e5 : Game.step_player env 0 s = steadyMid env s := Game.steady_player env s hjr
  have e6 : Game.step_spawn env d.wave 0 (steadyMid env s) = steadyMid env s :=
    Game.steady_spawn env d.wave (steadyMid env s) hspawn
  have e7 : Game.step_motion env 0 (steadyMid env s) = steadyPost env s :=
    Game.steady_motion env (steadyMid env s)
      (fun e he => ⟨(henem e he).2.1, (henem e he).2.2.1⟩)
      (fun pu hm2 => (hpulse pu hm2).2)
      (fun h hm2 => (hharp h hm2).2)
      (fun b hb => ⟨(hbuoy b hb).1, (hbuoy b hb).2.1⟩)
      (fun c hc => (hcat c hc).2.1)
  have hallM : ∀ e ∈ List.map chargerBoost s.enemies, e.alive = true
      ∧ ¬((e.x - (Player.update env 0 s.phase s.runtime none s.player).x)
            * (e.x - (Player.update env 0 s.phase s.runtime none s.player).x)
          + (e.y - (Player.update env 0 s.phase s.runtime none s.player).y)
            * (e.y - (Player.update env 0 s.phase s.runtime none s.player).y)
          ≤ (ENEMY_RADIUS + PLAYER_RADIUS) ^ 2)
      ∧ (∀ h ∈ s.harpoons, ¬((e.x - h.x) * (e.x - h.x) + (e.y - h.y) * (e.y - h.y)
            ≤ (ENEMY_RADIUS + 6) ^ 2))
      ∧ (∀ pu ∈ s.pulses, ¬(Enemy.hit_by_pulse e pu = true)) := by
    intro e he
    obtain ⟨a, ha, rfl⟩ := List.mem_map.mp he
    refine ⟨?_, ?_, ?_, ?_⟩
    · rw [chargerBoost_alive]
      exact (henem a ha).1
    · rw [chargerBoost_x, chargerBoost_y]
      exact (henem a ha).2.2.2.1
    · intro hh hm2
      rw [chargerBoost_x, chargerBoost_y]
      exact (henem a ha).2.2.2.2.1 hh hm2
    · intro pu hm2
      rw [chargerBoost_hit_by_pulse]
      exact (henem a ha).2.2.2.2.2 pu hm2
  have e8 : Game.step_combat env d.kills (steadyPost env s) = (steadyPost env s, d.kills) :=
    Game.steady_combat env d.kills (steadyPost env s) hallM
  have e8a : (Game.step_combat env d.kills (steadyPost env s)).1 = steadyPost env s := by
    rw [e8]
  have e8b : (Game.step_combat env d.kills (steadyPost env s)).2 = d.kills := by
    rw [e8]
  have e9 : Game.step_purge (steadyPost env s) = steadyPost env s :=
    Game.steady_purge (steadyPost env s)
      (fun e he => by
        have he2 : e ∈ List.map chargerBoost s.enemies := he
        obtain ⟨a, ha, rfl⟩ := List.mem_map.mp he2
        rw [chargerBoost_alive]
        exact (henem a ha).1)
      (fun pu hm2 => (hpulse pu hm2).1)
      (fun h hm2 => (hharp h hm2).1)
      (fun c hc => (hcat c hc).1)
  have e10 : Game.step_particles 0 (steadyPost env s) = steadyPost env s :=
    Game.steady_particles (steadyPost env s) (fun pa hm2 => hpart pa hm2)
  have e11 : Game.step_buoy (steadyPost env s) = steadyPost env s :=
    Game.steady_buoy (steadyPost env s)
      (fun b hb => by
        have h2 := (hbuoy b hb).2.2
        simpa using h2)
  have e12 : Game.step_catches (steadyPost env s) = steadyPost env s :=
    Game.steady_catches (steadyPost env s)
      (fun c hc => ⟨(hcat c hc).1, (hcat c hc).2.2⟩)
  have e13 : Game.step_strike env d.kills (steadyPost env s) = steadyPost env s :=
    Game.steady_strike env d.kills (steadyPost env s) hspecint
  have hlctM : ¬((Player.update env 0 s.phase s.runtime none s.player).last_combo_time > 4
      ∧ (Player.update env 0 s.phase s.runtime none s.player).combo > 0) := by
    rw [Player.update_zero_lct, Player.update_zero_combo]
    exact hlct
  have e14 : Game.step_decay (steadyPost env s) = steadyPost env s :=
    Game.steady_decay (steadyPost env s) hlctM
  have hhpM : 0 < (Player.update env 0 s.phase s.runtime none s.player).health := by
    rw [Player.update_zero_health]
    exact hhp
  have hscM : pyInt (Player.update env 0 s.phase s.runtime none s.player).score
      ≤ s.high_score := by
    rw [Player.update_zero_score]
    exact hsc
  have e15 : Game.step_finish (steadyPost env s) = steadyPost env s :=
    Game.steady_finish (steadyPost env s) hhpM hscM
  simp only [Game.run_tick]
  rw [e1, e2, e3, e4, e5, e6, e7, e8a, e8b, e9, e10, e11, e12, e13, e14, e15]

/-- C5 — corrected.  The specification says a `dt = 0` tick "has no
observable effect".  Even with no pending intents and a steady boundary
state, the tick is not a no-op: exactly two residues remain, both written
without a `dt` factor in main.py — the player's spring-damper vertical
update (main.py:316-324) and each charger's speed multiplication by 1.005
(main.py:219).  Everything else is unchanged, and the player residue is
exactly the spring/damp/snap rule. -/
theorem c5_dt_zero_amended (env : Env) (d : TickDraws) (s : Game)
    (hs : SteadyFrame env s) :
    Game.update env d 0 s
      = { s with player := Player.update env 0 s.phase s.runtime none s.player,
                 enemies := List.map chargerBoost s.enemies }
    ∧ Player.update env 0 s.phase s.runtime none s.player
      = (if |generate_wave_y env s.player.anchor_x s.phase s.runtime - 22 - s.player.y| < 0.4
            ∧ |(s.player.vy + (generate_wave_y env s.player.anchor_x s.phase s.runtime - 22
                - s.player.y) * 0.12) * 0.88| < 0.15
          then { s.player with
                   y := generate_wave_y env s.player.anchor_x s.phase s.runtime - 22,
                   vy := 0 }
          else { s.player with
                   vy := (s.player.vy + (generate_wave_y env s.player.anchor_x s.phase
                       s.runtime - 22 - s.player.y) * 0.12) * 0.88 }) := by
  have hs2 := hs
  simp only [SteadyFrame] at hs2
  obtain ⟨-, hg, hp, -, -, -, -, -, -, -, -, -, hpx, hpf, -⟩ := hs2
  constructor
  · rw [Game.update_zero_gameplay env d s hg hp]
    exact Game.run_tick_steady env d s hs
  · exact Player.update_zero_spec env s.phase s.runtime s.player hpx hpf

/-- C5 counterexample to the literal "no observable effect" reading: on a
gameplay state with no pending intents, a `dt = 0` tick still changes the
player — `vy` jumps from 0 to 103224/3125, the spring-damper pull toward
the waterline (main.py:316-318), which is not scaled by `dt`. -/
theorem c5_dt_zero_counterexample :
    gC.state = GState.gameplay ∧ gC.paused = false
    ∧ gC.pending_shot = false ∧ gC.pending_pulse = false
    ∧ gC.pending_special = false ∧ gC.jump_request = none
    ∧ gC.player.vy = 0
    ∧ (Game.update env0 d0 0 gC).player.vy = 103224 / 3125 := by
  refine ⟨rfl, rfl, rfl, rfl, rfl, rfl, rfl, ?_⟩
  norm_num [Game.update, Game.run_tick, Game.step_timers, Game.step_fire,
    Game.step_pulse_intent, Game.step_mesh, Game.step_player, Game.step_spawn,
    Game.step_motion, Game.step_combat, Game.step_purge, Game.step_particles,
    Game.step_buoy, Game.step_catches, Game.step_strike, Game.step_decay,
    Game.step_finish, Game.combat_fold, Game.init, Game.reset, Player.init,
    Player.update, Player.snap_to_wave, collect_catches,
    pyMod, pyInt, generate_wave_y, goal_for_stage, ENEMY_SPAWN_EVERY,
    PULSE_ENERGY_MAX, WIDTH, HEIGHT, WATERLINE, WAVE_SPEED, BASE_AMPLITUDE,
    AMPLITUDE_SWAY, WAVELENGTH, env0, d0, g0, gC, abs_lt, le_abs]

/-- Witness for the amended C5 theorem: the freshly reset gameplay state with
its wave mesh rebuilt satisfies the steady-frame hypothesis, and the theorem
applies to it. -/
theorem c5_dt_zero_amended_witness :
    SteadyFrame env0 gW
    ∧ Game.update env0 d0 0 gW
      = { gW with player := Player.update env0 0 gW.phase gW.runtime none gW.player,
                  enemies := List.map chargerBoost gW.enemies } :=
  have hsf : SteadyFrame env0 gW := by
    simp only [SteadyFrame, gW, g0, Game.init, Game.reset]
    norm_num [Player.init, Player.snap_to_wave, env0, pyInt, PULSE_ENERGY_MAX,
      ENEMY_SPAWN_EVERY, WIDTH, HEIGHT, WATERLINE, goal_for_stage]
    intro b hb
    simp at hb
  ⟨hsf, (c5_dt_zero_amended env0 d0 gW hsf).1⟩

/-- Witness for C4: on `g0` with an enemy placed exactly on the player, both
hypotheses hold and the player-contact outcome is the one applied. -/
theorem c4_player_contact_precedence_witness :
    eC.alive = true
    ∧ ((eC.x - g0.player.x) * (eC.x - g0.player.x)
        + (eC.y - g0.player.y) * (eC.y - g0.player.y)
        ≤ (ENEMY_RADIUS + PLAYER_RADIUS) ^ 2)
    ∧ (Game.resolve_enemy env0 eC g0 []).1.alive = false
    ∧ (Game.resolve_enemy env0 eC g0 []).2.1.pulse_energy = g0.pulse_energy :=
  have hov : (eC.x - g0.player.x) * (eC.x - g0.player.x)
      + (eC.y - g0.player.y) * (eC.y - g0.player.y)
      ≤ (ENEMY_RADIUS + PLAYER_RADIUS) ^ 2 := by
    norm_num [eC, g0, Game.init, Game.reset, Player.init, Player.snap_to_wave,
      generate_wave_y, env0, WIDTH, HEIGHT, WATERLINE, BASE_AMPLITUDE,
      AMPLITUDE_SWAY, WAVELENGTH, ENEMY_RADIUS, PLAYER_RADIUS]
  ⟨rfl, hov,
   (c4_player_contact_precedence env0 eC g0 [] rfl hov).2.2.2.2.2.2,
   (c4_player_contact_precedence env0 eC g0 [] rfl hov).2.2.1⟩

/-- Witness for C2: the hypothesis-bearing conjuncts applied at `g0` (not
awaiting a buoy) and `gA` (awaiting one). -/
theorem c2_stage_progression_witness :
    g0.awaiting_buoy = false ∧ gA.awaiting_buoy = true
    ∧ g0.kills_this_stage ≤ g0.stage_goal
    ∧ Game.advance_stage g0 = g0
    ∧ (Game.advance_stage gA).stage = gA.stage + 1
    ∧ ((Game.update env0 d0 0 g0).awaiting_buoy = true →
        (Game.update env0 d0 0 g0).kills_this_stage
          ≤ (Game.update env0 d0 0 g0).stage_goal) :=
  ⟨rfl, rfl,
   by norm_num [g0, Game.init, Game.reset, goal_for_stage],
   c2_stage_progression.2.1 g0 rfl,
   (c2_stage_progression.2.2.1 gA rfl).1,
   c2_stage_progression.2.2.2.2.2.2 env0 d0 0 g0
     (fun _ => by norm_num [g0, Game.init, Game.reset, goal_for_stage])⟩

/-- Witness for C3: the damage rules applied to the `g0` player (expired
iframes) and to `pI` (live iframes), and the tick bounds applied at `g0`. -/
theorem c3_health_invariants_witness :
    (Player.init env0).health = 3
    ∧ g0.player.iframes ≤ 0
    ∧ (Player.damage g0.player).health = g0.player.health - 1
    ∧ 0 < pI.iframes
    ∧ Player.damage pI = pI
    ∧ 0 ≤ g0.player.health ∧ g0.player.health ≤ 3
    ∧ 0 ≤ (Game.update env0 d0 0 g0).player.health
    ∧ (Game.update env0 d0 0 g0).player.health ≤ 3 :=
  have hif : g0.player.iframes ≤ 0 := by
    norm_num [g0, Game.init, Game.reset, Player.init, Player.snap_to_wave]
  have hpi : (0 : ℚ) < pI.iframes := by
    norm_num [pI, g0, Game.init, Game.reset, Player.init, Player.snap_to_wave]
  have h0 : (0 : ℤ) ≤ g0.player.health := by
    norm_num [g0, Game.init, Game.reset, Player.init, Player.snap_to_wave]
  have h3 : g0.player.health ≤ 3 := by
    norm_num [g0, Game.init, Game.reset, Player.init, Player.snap_to_wave]
  have hgo : g0.player.health ≤ 0 → g0.state = GState.game_over := fun h =>
    absurd h (by norm_num [g0, Game.init, Game.reset, Player.init, Player.snap_to_wave])
  ⟨c3_health_invariants.1 env0, hif,
   (c3_health_invariants.2.1 g0.player hif).1,
   hpi, c3_health_invariants.2.2.1 pI hpi,
   h0, h3,
   (c3_health_invariants.2.2.2 env0 d0 0 g0 h0 h3 hgo).1,
   (c3_health_invariants.2.2.2 env0 d0 0 g0 h0 h3 hgo).2.1⟩

/-- Witness for C6: the low-energy rule at `g0` (energy 60), the full-energy
rule at `gF`, and the tick bounds at `g0`. -/
theorem c6_pulse_energy_rules_witness :
    min PULSE_ENERGY_MAX (g0.pulse_energy + 0 * 8) < PULSE_ENERGY_MAX
    ∧ (Game.step_pulse_intent 0 g0).pulses = g0.pulses
    ∧ gF.pending_pulse = true
    ∧ min PULSE_ENERGY_MAX (gF.pulse_energy + 0 * 8) ≥ PULSE_ENERGY_MAX
    ∧ (Game.step_pulse_intent 0 gF).pulse_energy = 0
    ∧ (0 : ℚ) ≤ g0.pulse_energy ∧ g0.pulse_energy ≤ PULSE_ENERGY_MAX
    ∧ 0 ≤ (Game.update env0 d0 0 g0).pulse_energy
    ∧ (Game.update env0 d0 0 g0).pulse_energy ≤ PULSE_ENERGY_MAX :=
  have hlow : min PULSE_ENERGY_MAX (g0.pulse_energy + 0 * 8) < PULSE_ENERGY_MAX := by
    norm_num [g0, Game.init, Game.reset, PULSE_ENERGY_MAX]
  have hge : min PULSE_ENERGY_MAX (gF.pulse_energy + 0 * 8) ≥ PULSE_ENERGY_MAX := by
    norm_num [gF, g0, Game.init, Game.reset, PULSE_ENERGY_MAX]
  have h0 : (0 : ℚ) ≤ g0.pulse_energy := by
    norm_num [g0, Game.init, Game.reset, PULSE_ENERGY_MAX]
  have h1 : g0.pulse_energy ≤ PULSE_ENERGY_MAX := by
    norm_num [g0, Game.init, Game.reset, PULSE_ENERGY_MAX]
  ⟨hlow, (c6_pulse_energy_rules.1 0 g0 hlow).1,
   rfl, hge, (c6_pulse_energy_rules.2.1 0 gF rfl hge).2,
   h0, h1,
   (c6_pulse_energy_rules.2.2 env0 d0 0 g0 le_rfl h0 h1).1,
   (c6_pulse_energy_rules.2.2 env0 d0 0 g0 le_rfl h0 h1).2⟩

/-- Witness for C10: the spawn guard at a full stock of five catches (`gS`)
and the tick invariant at `g0`. -/
theorem c10_special_catch_cap_witness :
    SPECIAL_MAX_STOCK ≤ (gS.special_catches.length : ℤ)
    ∧ Game.maybe_spawn_special noDraw 0 0 gS = gS
    ∧ g0.special_catches.length ≤ 5
    ∧ (Game.update env0 d0 0 g0).special_catches.length ≤ 5 :=
  have hfull : SPECIAL_MAX_STOCK ≤ (gS.special_catches.length : ℤ) := by
    norm_num [gS, g0, Game.init, Game.reset, SPECIAL_MAX_STOCK]
  have hlen : g0.special_catches.length ≤ 5 := by
    norm_num [g0, Game.init, Game.reset]
  ⟨hfull, c10_special_catch_cap.1 noDraw 0 0 gS hfull,
   hlen, c10_special_catch_cap.2 env0 d0 0 g0 hlen⟩

end WaveRunner
